import Mathlib

-- Verification of the dBase field codec and memo reader (src/record/field.rs)
-- against its natural-language specification.  The Rust code is shallowly
-- embedded: u32/i32 values become Nat/Int with explicit wrap-around where a
-- cast occurs, streams become byte lists (sequential reads) or offset-indexed
-- read functions (seek-based reads), and fallible operations return Except.

set_option maxRecDepth 40000

namespace Dbase

-- I/O error kinds: the code only distinguishes `UnexpectedEof` from all other
-- kinds (`e.kind() != std::io::ErrorKind::UnexpectedEof`), so other kinds are
-- modelled by an opaque numeric code.
inductive ErrorKind where
  | unexpectedEof
  | otherKind (code : Nat)
deriving DecidableEq

-- Modelled from the spec: the library's `Error` enum lives outside the given
-- sources (only its variants `Error::InvalidDate`, `Error::MissingMemoFile`,
-- `Error::InvalidFieldType` and the `?`-conversions from io/parse errors are
-- referenced in field.rs; §7 of the spec lists the error kinds).
inductive Error where
  | InvalidFieldType (c : Char)
  | InvalidDate
  | MissingMemoFile
  | NumParseError
  | FloatParseError
  | IoError (kind : ErrorKind)
deriving DecidableEq

-- `u32` two's-complement reinterpretations.
def u32_of_i32 (i : Int) : Nat := (i % 4294967296).toNat

def i32_of_u32 (n : Nat) : Int :=
  if n < 2147483648 then (n : Int) else (n : Int) - 4294967296

-- Date { year: u32, month: u32, day: u32 } (same field order as the source).
structure Date where
  year : Nat
  month : Nat
  day : Nat
deriving DecidableEq

-- Date::new(day, month, year): note the argument order of the source.
def Date.new (day month year : Nat) : Except Error Date :=
  if month > 12 ∨ day > 31 ∨ year < 1900 ∨ year > 2155 then
    .error .InvalidDate
  else
    .ok ⟨year, month, day⟩

-- Date::from_bytes([u8; 3]) (legacy 3-byte binary codec).
def Date.from_bytes (b0 b1 b2 : Nat) : Date :=
  ⟨1900 + b0, b1, b2⟩

-- Date::julian_day_number_to_gregorian_date(jdn: i32).  Rust `/` and `%` on
-- i32 truncate toward zero, which is Int.tdiv / Int.tmod.  The final
-- `as u32` casts are u32_of_i32.  i32 overflow cannot occur for the jdn
-- values reachable from dates in the validated range.
def Date.julian_day_number_to_gregorian_date (jdn : Int) : Date :=
  let f : Int := jdn + 1401 + Int.tdiv (Int.tdiv (4 * jdn + 274277) 146097 * 3) 4 + (-38)
  let e : Int := 4 * f + 3
  let g : Int := Int.tdiv (Int.tmod e 1461) 4
  let h : Int := 5 * g + 2
  let day : Int := Int.tdiv (Int.tmod h 153) 5 + 1
  let month : Int := Int.tmod (Int.tdiv h 153 + 2) 12 + 1
  let year : Int := Int.tdiv e 1461 - 4716 + Int.tdiv (12 + 2 - month) 12
  ⟨u32_of_i32 year, u32_of_i32 month, u32_of_i32 day⟩

-- The u32 arithmetic of Date::to_julian_day_number, before the `as i32` cast.
-- Rust u32 `/` is Nat division; u32 `-` matches Nat subtraction because no
-- subtraction here underflows for month ≥ 1 honoured by the branch and
-- year ≥ 1.  Intermediate u32 overflow (only possible for years beyond
-- roughly 2.9 million) is not modelled; the final sum is wrapped as the
-- cast reinterprets it.
def Date.to_julian_day_number_u32 (d : Date) : Nat :=
  let my : Nat × Nat := if d.month > 2 then (d.month - 3, d.year) else (d.month + 9, d.year - 1)
  let century : Nat := my.2 / 100
  let decade : Nat := my.2 - 100 * century
  ((146097 * century) / 4 + (1461 * decade) / 4 + (153 * my.1 + 2) / 5 + d.day + 1721119) % 4294967296

-- Date::to_julian_day_number(&self) -> i32.
def Date.to_julian_day_number (d : Date) : Int :=
  i32_of_u32 d.to_julian_day_number_u32

-- Time { hours, minutes, seconds } and Time::from_word(time_word: i32).
structure Time where
  hours : Nat
  minutes : Nat
  seconds : Nat
deriving DecidableEq

def Time.from_word (time_word : Int) : Time :=
  let hours : Nat := u32_of_i32 (Int.tdiv time_word 3600000)
  let t1 : Int := time_word - i32_of_u32 ((hours * 3600000) % 4294967296)
  let minutes : Nat := u32_of_i32 (Int.tdiv t1 60000)
  let t2 : Int := t1 - i32_of_u32 ((minutes * 60000) % 4294967296)
  let seconds : Nat := u32_of_i32 (Int.tdiv t2 1000)
  ⟨hours, minutes, seconds⟩

-- DateTime { date, time }.
structure DateTime where
  date : Date
  time : Time
deriving DecidableEq

-- Rust char::is_whitespace (the Unicode White_Space property), used by
-- str::trim.
def ws_codes : List Nat :=
  [9, 10, 11, 12, 13, 32, 133, 160, 5760, 8192, 8193, 8194, 8195, 8196, 8197,
   8198, 8199, 8200, 8201, 8202, 8232, 8233, 8239, 8287, 12288]

def is_rust_whitespace (c : Char) : Bool := decide (c.toNat ∈ ws_codes)

-- str::trim.
def str_trim (s : List Char) : List Char :=
  ((s.dropWhile is_rust_whitespace).reverse.dropWhile is_rust_whitespace).reverse

-- u32::from_str (used via str::parse::<u32>): an optional leading '+', then
-- one or more ASCII digits; the value must fit in u32.
def parse_digits_aux : List Char → Nat → Option Nat
  | [], acc => some acc
  | c :: rest, acc =>
    if c.isDigit then parse_digits_aux rest (acc * 10 + (c.toNat - 48)) else none

def parse_u32 (s : List Char) : Option Nat :=
  let digits : List Char := match s with
    | '+' :: rest => rest
    | _ => s
  match digits with
  | [] => none
  | _ :: _ =>
    match parse_digits_aux digits 0 with
    | none => none
    | some v => if v < 4294967296 then some v else none

-- String::from_utf8_lossy.  Valid UTF-8 sequences decode to their scalar
-- value; malformed input yields U+FFFD.  (Rust substitutes one U+FFFD per
-- maximal invalid subpart; here a malformed sequence yields one U+FFFD for
-- its leading byte and decoding resumes right after that byte.  The two
-- policies agree on valid UTF-8, which is all the claims exercise.)
def utf8_cont (b : Nat) : Bool := decide (128 ≤ b ∧ b ≤ 191)

def utf8_second_of_three (b c1 : Nat) : Bool :=
  if b = 224 then decide (160 ≤ c1 ∧ c1 ≤ 191)
  else if b = 237 then decide (128 ≤ c1 ∧ c1 ≤ 159)
  else utf8_cont c1

def utf8_second_of_four (b c1 : Nat) : Bool :=
  if b = 240 then decide (144 ≤ c1 ∧ c1 ≤ 191)
  else if b = 244 then decide (128 ≤ c1 ∧ c1 ≤ 143)
  else utf8_cont c1

def from_utf8_lossy_aux : Nat → List Nat → List Char
  | 0, _ => []
  | fuel + 1, s =>
    match s with
    | [] => []
    | b :: rest =>
      if b < 128 then Char.ofNat b :: from_utf8_lossy_aux fuel rest
      else if 194 ≤ b ∧ b ≤ 223 then
        match rest with
        | c1 :: rest2 =>
          if utf8_cont c1 then
            Char.ofNat ((b - 192) * 64 + (c1 - 128)) :: from_utf8_lossy_aux fuel rest2
          else Char.ofNat 65533 :: from_utf8_lossy_aux fuel rest
        | [] => [Char.ofNat 65533]
      else if 224 ≤ b ∧ b ≤ 239 then
        match rest with
        | c1 :: c2 :: rest2 =>
          if utf8_second_of_three b c1 && utf8_cont c2 then
            Char.ofNat ((b - 224) * 4096 + (c1 - 128) * 64 + (c2 - 128)) ::
              from_utf8_lossy_aux fuel rest2
          else Char.ofNat 65533 :: from_utf8_lossy_aux fuel rest
        | _ => Char.ofNat 65533 :: from_utf8_lossy_aux fuel rest
      else if 240 ≤ b ∧ b ≤ 244 then
        match rest with
        | c1 :: c2 :: c3 :: rest2 =>
          if utf8_second_of_four b c1 && utf8_cont c2 && utf8_cont c3 then
            Char.ofNat ((b - 240) * 262144 + (c1 - 128) * 4096 + (c2 - 128) * 64 + (c3 - 128)) ::
              from_utf8_lossy_aux fuel rest2
          else Char.ofNat 65533 :: from_utf8_lossy_aux fuel rest
        | _ => Char.ofNat 65533 :: from_utf8_lossy_aux fuel rest
      else Char.ofNat 65533 :: from_utf8_lossy_aux fuel rest

-- The fuel (one unit per decoded character, each of which consumes at least
-- one input byte) never runs out when it starts at length + 1.
def from_utf8_lossy (s : List Nat) : List Char := from_utf8_lossy_aux (s.length + 1) s

-- Decimal rendering of a Nat, and zero-padding to a minimum width, modelling
-- the `{:04}` / `{:02}` format specifiers.
def digit_char (n : Nat) : Char := Char.ofNat (48 + n)

def nat_digits_aux : Nat → Nat → List Char
  | 0, _ => []
  | fuel + 1, n =>
    if n < 10 then [digit_char n]
    else nat_digits_aux fuel (n / 10) ++ [digit_char (n % 10)]

def nat_digits (n : Nat) : List Char := nat_digits_aux (n + 1) n

def pad_zeros (width : Nat) (s : List Char) : List Char :=
  List.replicate (width - s.length) '0' ++ s

-- impl WriteableDbaseField for Date:
-- write!(dst, "{:04}{:02}{:02}", self.year, self.month, self.day).
def Date.write_field (d : Date) : List Char :=
  pad_zeros 4 (nat_digits d.year) ++ pad_zeros 2 (nat_digits d.month) ++ pad_zeros 2 (nat_digits d.day)

-- impl FromStr for Date: parses s[0..4], s[4..6], s[6..8] as u32.  The byte
-- slices panic when the string is shorter than 8 bytes; slicing is modelled
-- at the char level, which coincides with byte slicing for the ASCII content
-- this codec produces.
inductive DateParseOutcome where
  | ok (d : Date)
  | err
  | panicked
deriving DecidableEq

def Date.from_str (s : List Char) : DateParseOutcome :=
  if s.length < 8 then .panicked
  else
    match parse_u32 (s.take 4), parse_u32 ((s.drop 4).take 2), parse_u32 ((s.drop 6).take 2) with
    | some y, some m, some d => .ok ⟨y, m, d⟩
    | _, _, _ => .err

-- Byte-list views of multi-byte integers.
def u16_le (b : List Nat) : Nat := b.getD 0 0 + 256 * b.getD 1 0

def u16_be (b : List Nat) : Nat := 256 * b.getD 0 0 + b.getD 1 0

def u32_le (b : List Nat) : Nat :=
  b.getD 0 0 + 256 * b.getD 1 0 + 65536 * b.getD 2 0 + 16777216 * b.getD 3 0

def u32_be (b : List Nat) : Nat :=
  16777216 * b.getD 0 0 + 65536 * b.getD 1 0 + 256 * b.getD 2 0 + b.getD 3 0

def u64_le (b : List Nat) : Nat := u32_le b + 4294967296 * u32_le (b.drop 4)

-- Sequential reads from a byte-list stream: `read_bytes k` models reading
-- exactly k bytes (read_exact and the byteorder read_uXX helpers), failing
-- with UnexpectedEof when the stream is shorter.
def read_bytes (k : Nat) (s : List Nat) : Except ErrorKind (List Nat × List Nat) :=
  if s.length < k then .error .unexpectedEof else .ok (s.take k, s.drop k)

-- fn read_string_of_len(source, len: u8): reads len bytes and decodes them
-- with String::from_utf8_lossy.
def read_string_of_len (len : Nat) (s : List Nat) : Except ErrorKind (List Char × List Nat) :=
  match read_bytes len s with
  | .error e => .error e
  | .ok (bs, rest) => .ok (from_utf8_lossy bs, rest)

-- MemoFileType.
inductive MemoFileType where
  | DbaseMemo
  | DbaseMemo4
  | FoxBaseMemo
deriving DecidableEq

-- MemoHeader { next_available_block_index: u32, block_size: u32 }.
structure MemoHeader where
  next_available_block_index : Nat
  block_size : Nat
deriving DecidableEq

-- MemoHeader::read_from: a little-endian u32 next-available-block-index, then
-- the block size: little-endian u16 with 0 mapped to 512 for the two dBase
-- variants; for FoxBase a skipped (error-ignored) big-endian u16 followed by
-- a big-endian u16 taken as-is.
def MemoHeader.read_from (memo_type : MemoFileType) (s : List Nat) :
    Except ErrorKind (MemoHeader × List Nat) :=
  match read_bytes 4 s with
  | .error e => .error e
  | .ok (nb, s1) =>
    let next_available_block_index := u32_le nb
    match memo_type with
    | .DbaseMemo | .DbaseMemo4 =>
      match read_bytes 2 s1 with
      | .error e => .error e
      | .ok (bs, s2) =>
        let block_size := match u16_le bs with
          | 0 => 512
          | v => v
        .ok (⟨next_available_block_index, block_size⟩, s2)
    | .FoxBaseMemo =>
      -- `let _ = src.read_u16::<BigEndian>();` ignores its result (and any
      -- error); it consumes up to two bytes.
      let s2 := s1.drop 2
      match read_bytes 2 s2 with
      | .error e => .error e
      | .ok (bs, s3) => .ok (⟨next_available_block_index, u16_be bs⟩, s3)

-- MemoReader<T> { memo_file_type, header, source, internal_buffer }.  The
-- seekable source is passed separately to read_data_at as an offset-indexed
-- read function (see ReadAt below).
structure MemoReader where
  memo_file_type : MemoFileType
  header : MemoHeader
  internal_buffer : List Nat
deriving DecidableEq

-- A seekable stream: `src off len` models seeking to `off` and reading
-- exactly `len` bytes.  An arbitrary function captures arbitrary underlying
-- I/O behaviour (needed to model non-EOF errors); list_read_at below is the
-- in-memory instance corresponding to a Cursor over a byte vector.
def ReadAt : Type := Nat → Nat → Except ErrorKind (List Nat)

def list_read_at (file : List Nat) : ReadAt := fun off len =>
  if off + len ≤ file.length then .ok ((file.drop off).take len) else .error .unexpectedEof

-- MemoReader::new.
def MemoReader.new (memo_type : MemoFileType) (file : List Nat) :
    Except ErrorKind MemoReader :=
  match MemoHeader.read_from memo_type file with
  | .error e => .error e
  | .ok (header, _) => .ok ⟨memo_type, header, List.replicate header.block_size 0⟩

-- Result of MemoReader::read_data_at: the returned slice together with the
-- internal buffer after the call, an I/O error, or a Rust panic (an
-- out-of-bounds slice index).
inductive MemoReadOutcome where
  | ok (data : List Nat) (buffer : List Nat)
  | ioError (e : ErrorKind)
  | panicked
deriving DecidableEq

-- Option::rposition used in the FoxBase branch.
def rposition (p : Nat → Bool) (l : List Nat) : Option Nat :=
  match l.reverse.findIdx? p with
  | some i => some (l.length - 1 - i)
  | none => none

-- MemoReader::read_data_at(index: u32).  byte_offset is a u32 product (wraps)
-- and the classic branch compares against a u32 subtraction (wraps at 0).
def MemoReader.read_data_at (r : MemoReader) (src : ReadAt) (index : Nat) : MemoReadOutcome :=
  let byte_offset := (index * r.header.block_size) % 4294967296
  match r.memo_file_type with
  | .FoxBaseMemo =>
    match src byte_offset 4 with
    | .error e => .ioError e
    | .ok _tag_bytes =>
      match src (byte_offset + 4) 4 with
      | .error e => .ioError e
      | .ok len_bytes =>
        let length := u32_be len_bytes
        let buf :=
          if length > r.internal_buffer.length then
            r.internal_buffer ++ List.replicate (length - r.internal_buffer.length) 0
          else r.internal_buffer
        match src (byte_offset + 8) length with
        | .error e => .ioError e
        | .ok data =>
          let new_buffer := data.take length ++ buf.drop (data.take length).length
          let buf_slice := new_buffer.take length
          match rposition (fun b => b ≠ 0) buf_slice with
          | some pos => .ok (buf_slice.take (pos + 1)) new_buffer
          | none =>
            if buf_slice.all (fun b => b = 0) then .ok (buf_slice.take 0) new_buffer
            else .ok buf_slice new_buffer
  | .DbaseMemo4 =>
    match src byte_offset 4 with
    | .error e => .ioError e
    | .ok _tag_bytes =>
      match src (byte_offset + 4) 4 with
      | .error e => .ioError e
      | .ok len_bytes =>
        let length := u32_le len_bytes
        -- &mut self.internal_buffer[..length]: unlike the FoxBase branch the
        -- buffer is never grown, so this slice panics when length exceeds it.
        if length > r.internal_buffer.length then .panicked
        else
          match src (byte_offset + 8) length with
          | .error e => .ioError e
          | .ok data =>
            let new_buffer := data.take length ++ r.internal_buffer.drop (data.take length).length
            match (new_buffer.take length).findIdx? (fun b => b = 31) with
            | some pos => .ok (new_buffer.take pos) new_buffer
            | none => .ok new_buffer new_buffer
  | .DbaseMemo =>
    match src byte_offset r.internal_buffer.length with
    | .error e =>
      if index ≠ (r.header.next_available_block_index + 4294967295) % 4294967296 ∧
          e ≠ .unexpectedEof then
        .ioError e
      else
        -- The failed read_exact leaves the buffer contents unspecified in
        -- Rust; the model keeps the previous contents.
        match r.internal_buffer.findIdx? (fun b => b = 26) with
        | some pos => .ok (r.internal_buffer.take pos) r.internal_buffer
        | none => .ok r.internal_buffer r.internal_buffer
    | .ok data =>
      let new_buffer := data.take r.internal_buffer.length ++
        r.internal_buffer.drop (data.take r.internal_buffer.length).length
      match new_buffer.findIdx? (fun b => b = 26) with
      | some pos => .ok (new_buffer.take pos) new_buffer
      | none => .ok new_buffer new_buffer

-- FieldType (the field-type catalog; only the pieces the dispatcher needs).
inductive FieldType where
  | Character
  | Date
  | Float
  | Numeric
  | Logical
  | Currency
  | DateTime
  | Integer
  | Double
  | Memo
deriving DecidableEq

-- FieldInfo: the dispatcher reads only field_type and field_length (a u8);
-- the remaining descriptor fields (name, flags, displacement, autoincrement
-- metadata, decimal places) never influence FieldValue::read_from.
structure FieldInfo where
  field_type : FieldType
  field_length : Nat
deriving DecidableEq

-- FieldValue, polymorphic over the payloads produced by the two std float
-- parsers (f64 for Numeric, f32 for Float), which are not representable in
-- the embedding; Currency/Double hold the raw little-endian u64 bit pattern
-- of the f64 that the source reads.
inductive FieldValue (α β : Type) where
  | Character (v : Option (List Char))
  | Numeric (v : Option α)
  | Logical (v : Option Bool)
  | Date (v : Option Dbase.Date)
  | Float (v : Option β)
  | Integer (v : Int)
  | Currency (v : Nat)
  | DateTime (v : Dbase.DateTime)
  | Double (v : Nat)
  | Memo (v : List Char)
deriving DecidableEq

-- Result of FieldValue::read_from: the decoded value plus the unread rest of
-- the record stream, an error, or a panic propagated from Date::from_str or
-- the memo reader.
inductive ReadFieldOutcome (α β : Type) where
  | ok (v : FieldValue α β) (rest : List Nat)
  | err (e : Error)
  | panicked
deriving DecidableEq

-- The Logical match arms of FieldValue::read_from.
def logical_value_of_char (c : Char) : Option Bool :=
  match c with
  | ' ' | '?' => none
  | '1' | '0' | 'T' | 't' | 'Y' | 'y' => some true
  | 'N' | 'n' | 'F' | 'f' => some false
  | _ => none

-- FieldValue::read_from(source, memo_reader, field_info), dispatching on
-- field_info.field_type.  p_num and p_f32 stand for str::parse::<f64> and
-- str::parse::<f32>; a parse returning none models a ParseFloatError.
def FieldValue.read_from {α β : Type} (p_num : List Char → Option α)
    (p_f32 : List Char → Option β) (source : List Nat)
    (memo_reader : Option (MemoReader × ReadAt)) (field_info : FieldInfo) :
    ReadFieldOutcome α β :=
  match field_info.field_type with
  | .Logical =>
    match source with
    | [] => .err (.IoError .unexpectedEof)
    | b :: rest => .ok (.Logical (logical_value_of_char (Char.ofNat b))) rest
  | .Character =>
    match read_string_of_len field_info.field_length source with
    | .error e => .err (.IoError e)
    | .ok (value, rest) =>
      let trimmed_value := str_trim value
      if trimmed_value = [] then .ok (.Character none) rest
      else .ok (.Character (some trimmed_value)) rest
  | .Numeric =>
    match read_string_of_len field_info.field_length source with
    | .error e => .err (.IoError e)
    | .ok (value, rest) =>
      let trimmed_value := str_trim value
      if trimmed_value = [] ∨ value.all (fun c => c = '*') then .ok (.Numeric none) rest
      else
        match p_num trimmed_value with
        | some v => .ok (.Numeric (some v)) rest
        | none => .err .FloatParseError
  | .Float =>
    match read_string_of_len field_info.field_length source with
    | .error e => .err (.IoError e)
    | .ok (value, rest) =>
      let trimmed_value := str_trim value
      if trimmed_value = [] ∨ value.all (fun c => c = '*') then .ok (.Float none) rest
      else
        match p_f32 trimmed_value with
        | some v => .ok (.Float (some v)) rest
        | none => .err .FloatParseError
  | .Date =>
    match read_string_of_len field_info.field_length source with
    | .error e => .err (.IoError e)
    | .ok (value, rest) =>
      if value.all (fun c => c = ' ') then .ok (.Date none) rest
      else
        match Date.from_str value with
        | .ok d => .ok (.Date (some d)) rest
        | .err => .err .NumParseError
        | .panicked => .panicked
  | .Integer =>
    match read_bytes 4 source with
    | .error e => .err (.IoError e)
    | .ok (bs, rest) => .ok (.Integer (i32_of_u32 (u32_le bs))) rest
  | .Double =>
    match read_bytes 8 source with
    | .error e => .err (.IoError e)
    | .ok (bs, rest) => .ok (.Double (u64_le bs)) rest
  | .Currency =>
    match read_bytes 8 source with
    | .error e => .err (.IoError e)
    | .ok (bs, rest) => .ok (.Currency (u64_le bs)) rest
  | .DateTime =>
    match read_bytes 4 source with
    | .error e => .err (.IoError e)
    | .ok (b1, s1) =>
      match read_bytes 4 s1 with
      | .error e => .err (.IoError e)
      | .ok (b2, rest) =>
        let julian_day_number := i32_of_u32 (u32_le b1)
        let time_word := i32_of_u32 (u32_le b2)
        .ok (.DateTime ⟨Date.julian_day_number_to_gregorian_date julian_day_number,
          Time.from_word time_word⟩) rest
  | .Memo =>
    let index_and_rest : Except Error (Option (Nat × List Nat)) :=
      if field_info.field_length > 4 then
        match read_string_of_len field_info.field_length source with
        | .error e => .error (.IoError e)
        | .ok (string, rest) =>
          let trimmed_str := str_trim string
          if trimmed_str = [] then .ok none
          else
            match parse_u32 trimmed_str with
            | some idx => .ok (some (idx, rest))
            | none => .error .NumParseError
      else
        match read_bytes 4 source with
        | .error e => .error (.IoError e)
        | .ok (bs, rest) => .ok (some (u32_le bs, rest))
    match index_and_rest with
    | .error e => .err e
    | .ok none =>
      -- field_length > 4 with an all-blank index: early return of Memo("").
      match read_string_of_len field_info.field_length source with
      | .error e => .err (.IoError e)
      | .ok (_, rest) => .ok (.Memo []) rest
    | .ok (some (index_in_memo, rest)) =>
      match memo_reader with
      | some (r, src) =>
        match r.read_data_at src index_in_memo with
        | .ok data _ => .ok (.Memo (from_utf8_lossy data)) rest
        | .ioError e => .err (.IoError e)
        | .panicked => .panicked
      | none => .err .MissingMemoFile

-- Claim-side helpers: the proleptic-Gregorian calendar, used to state which
-- (year, month, day) triples are actual calendar dates.
def is_leap_year (y : Nat) : Bool := y % 4 = 0 && (y % 100 ≠ 0 || y % 400 = 0)

def gregorian_month_length (y m : Nat) : Nat :=
  if m = 2 then (if is_leap_year y then 29 else 28)
  else if m = 4 ∨ m = 6 ∨ m = 9 ∨ m = 11 then 30 else 31

-- A pure-Nat mirror of Date.julian_day_number_to_gregorian_date, valid for
-- the day numbers reached from dates in the validated range (see the bridge
-- lemma julian_to_gregorian_eq_nat below); it exists because Nat arithmetic
-- evaluates fast enough for exhaustive checking.
def from_julian_nat (n : Nat) : Date :=
  let f : Nat := n + 1401 + (4 * n + 274277) / 146097 * 3 / 4 - 38
  let e : Nat := 4 * f + 3
  let g : Nat := e % 1461 / 4
  let h : Nat := 5 * g + 2
  let day : Nat := h % 153 / 5 + 1
  let month : Nat := (h / 153 + 2) % 12 + 1
  let year : Nat := e / 1461 + (14 - month) / 12 - 4716
  ⟨year, month, day⟩

-- The byte-level Logical mapping as the claim states it: space and '?' give
-- no value, '1','0','T','t','Y','y' give true, 'N','n','F','f' give false,
-- everything else gives no value.
def logical_value_of_byte (b : Nat) : Option Bool :=
  if b = 32 ∨ b = 63 then none
  else if b = 49 ∨ b = 48 ∨ b = 84 ∨ b = 116 ∨ b = 89 ∨ b = 121 then some true
  else if b = 78 ∨ b = 110 ∨ b = 70 ∨ b = 102 then some false
  else none

instance {ε α : Type} [DecidableEq ε] [DecidableEq α] : DecidableEq (Except ε α) := fun a b =>
  match a, b with
  | .error e, .error f =>
    if h : e = f then isTrue (by rw [h]) else isFalse (by intro hc; cases hc; exact h rfl)
  | .error _, .ok _ => isFalse (by intro hc; cases hc)
  | .ok _, .error _ => isFalse (by intro hc; cases hc)
  | .ok x, .ok y =>
    if h : x = y then isTrue (by rw [h]) else isFalse (by intro hc; cases hc; exact h rfl)

-- ---------------------------------------------------------------------------
-- Theorems.
-- ---------------------------------------------------------------------------

theorem read_bytes_2 (a b : Nat) (r : List Nat) :
    read_bytes 2 (a :: b :: r) = .ok ([a, b], r) := by
  unfold read_bytes
  rw [if_neg (by simp)]
  rfl

theorem read_bytes_4 (a b c d : Nat) (r : List Nat) :
    read_bytes 4 (a :: b :: c :: d :: r) = .ok ([a, b, c, d], r) := by
  unfold read_bytes
  rw [if_neg (by simp)]
  rfl

theorem logical_char_eq_byte : ∀ b < 256,
    logical_value_of_char (Char.ofNat b) = logical_value_of_byte b := by decide

/-- C3 counterexample: the claim says Date::new errors whenever
month ∉ [1,12], but the code accepts month 0 and day 0: Date::new(0, 0, 2000)
succeeds even though 0 is outside [1,12] and [1,31]. -/
theorem C3_counterexample : Date.new 0 0 2000 = .ok ⟨2000, 0, 0⟩ ∧ ¬ (1 ≤ 0 ∧ 0 ≤ 12) := by
  decide

/-- C3 amended: Date::new(day, month, year) errors exactly when month > 12 or
day > 31 or year < 1900 or year > 2155 (the lower bounds 1 on month and day
are not checked), and otherwise returns the Date with the given components
unchanged. -/
theorem C3_theorem : ∀ day month year : Nat,
    (Date.new day month year = .error .InvalidDate ↔
      (12 < month ∨ 31 < day ∨ year < 1900 ∨ 2155 < year)) ∧
    (¬ (12 < month ∨ 31 < day ∨ year < 1900 ∨ 2155 < year) →
      Date.new day month year = .ok ⟨year, month, day⟩) := by
  intro day month year
  by_cases h : 12 < month ∨ 31 < day ∨ year < 1900 ∨ 2155 < year
  · simp [Date.new, h]
  · simp [Date.new, h]

/-- C3 witness. -/
theorem C3_witness : Date.new 1 1 2000 = .ok ⟨2000, 1, 1⟩ :=
  (C3_theorem 1 1 2000).2 (by decide)

/-- C5 counterexample: for the FoxBase variant a stored block size of 0 is
kept as 0, not mapped to 512: a FoxBase header with next-available-block 1
and stored block size 0 yields block_size 0. -/
theorem C5_counterexample :
    MemoHeader.read_from .FoxBaseMemo [1, 0, 0, 0, 9, 9, 0, 0] = .ok (⟨1, 0⟩, []) ∧
    (0 : Nat) ≠ 512 := by decide

/-- C5 amended: a stored block size of 0 is read as 512 for the two
dBase-style variants (DbaseMemo, DbaseMemo4); the FoxBase variant skips two
bytes and uses the following big-endian u16 unchanged, so a stored 0 stays 0. -/
theorem C5_theorem : ∀ b0 b1 b2 b3 : Nat, ∀ rest : List Nat,
    MemoHeader.read_from .DbaseMemo ([b0, b1, b2, b3, 0, 0] ++ rest) =
      .ok (⟨u32_le [b0, b1, b2, b3], 512⟩, rest) ∧
    MemoHeader.read_from .DbaseMemo4 ([b0, b1, b2, b3, 0, 0] ++ rest) =
      .ok (⟨u32_le [b0, b1, b2, b3], 512⟩, rest) ∧
    ∀ s0 s1 hi lo : Nat,
      MemoHeader.read_from .FoxBaseMemo ([b0, b1, b2, b3, s0, s1, hi, lo] ++ rest) =
        .ok (⟨u32_le [b0, b1, b2, b3], 256 * hi + lo⟩, rest) := by
  intro b0 b1 b2 b3 rest
  refine ⟨?_, ?_, ?_⟩
  · simp only [MemoHeader.read_from, List.cons_append, List.nil_append, read_bytes_4,
      read_bytes_2]
    simp [u16_le]
  · simp only [MemoHeader.read_from, List.cons_append, List.nil_append, read_bytes_4,
      read_bytes_2]
    simp [u16_le]
  · intro s0 s1 hi lo
    simp only [MemoHeader.read_from, List.cons_append, List.nil_append, read_bytes_4,
      List.drop_succ_cons, List.drop_zero, read_bytes_2]
    simp [u16_be]

/-- C8: reading a Logical field consumes exactly the one byte read, never
fails, and decodes it by the byte table logical_value_of_byte: space/'?' and
unrecognized bytes give no value, '1','0','T','t','Y','y' give true,
'N','n','F','f' give false. -/
theorem C8_theorem : ∀ (α β : Type) (p_num : List Char → Option α)
    (p_f32 : List Char → Option β) (mr : Option (MemoReader × ReadAt))
    (len : Nat) (b : Nat) (rest : List Nat), b < 256 →
    FieldValue.read_from p_num p_f32 (b :: rest) mr ⟨.Logical, len⟩ =
      .ok (.Logical (logical_value_of_byte b)) rest := by
  intro α β p_num p_f32 mr len b rest hb
  simp only [FieldValue.read_from]
  rw [logical_char_eq_byte b hb]

/-- C8 witness. -/
theorem C8_witness :
    FieldValue.read_from (fun t : List Char => some t) (fun t : List Char => some t)
      [89, 7] none ⟨.Logical, 1⟩ = .ok (.Logical (some true)) [7] := by
  have h := C8_theorem (List Char) (List Char) (fun t => some t) (fun t => some t)
    none 1 89 [7] (by decide)
  rw [show logical_value_of_byte 89 = some true from rfl] at h
  exact h

/-- C1: evaluation at the failing input.  A dBase-memo-4 block with stored
length 2 and payload [65, 66] containing no 0x1F byte: the code returns the
whole 8-byte scratch buffer (the 2 read bytes followed by 6 stale bytes),
not the 2 bytes that were read, contradicting the claim. -/
theorem C1_theorem :
    MemoReader.read_data_at ⟨.DbaseMemo4, ⟨1, 8⟩, List.replicate 8 0⟩
      (list_read_at [0, 0, 0, 0, 2, 0, 0, 0, 65, 66]) 0 =
      .ok [65, 66, 0, 0, 0, 0, 0, 0] [65, 66, 0, 0, 0, 0, 0, 0] ∧
    ([65, 66, 0, 0, 0, 0, 0, 0] : List Nat).length ≠ 2 := by decide

/-- C2: evaluation at the failing inputs.  Classic dBase memo: (1) an
end-of-stream while reading block 0 of a file whose header says 5 blocks are
allocated is tolerated (the claim requires it to propagate since 0 is not the
last block); (2) a non-EOF error while reading the last allocated block 4 is
also tolerated (the claim requires every non-EOF error to propagate). -/
theorem C2_theorem :
    MemoReader.read_data_at ⟨.DbaseMemo, ⟨5, 4⟩, [0, 0, 0, 0]⟩ (list_read_at []) 0 =
      .ok [0, 0, 0, 0] [0, 0, 0, 0] ∧
    MemoReader.read_data_at ⟨.DbaseMemo, ⟨5, 4⟩, [0, 0, 0, 0]⟩
      (fun _ _ => .error (.otherKind 7)) 4 = .ok [0, 0, 0, 0] [0, 0, 0, 0] := by decide

theorem read_bytes_split (len : Nat) (bytes rest : List Nat) (h : bytes.length = len) :
    read_bytes len (bytes ++ rest) = .ok (bytes, rest) := by
  unfold read_bytes
  rw [if_neg (by simp [List.length_append]; omega), List.take_left' h, List.drop_left' h]

theorem read_string_of_len_split (len : Nat) (bytes rest : List Nat) (h : bytes.length = len) :
    read_string_of_len len (bytes ++ rest) = .ok (from_utf8_lossy bytes, rest) := by
  unfold read_string_of_len
  rw [read_bytes_split len bytes rest h]

/-- C7: reading a Numeric or a Float field of any declared length yields
no-value exactly when the decoded text is empty after trimming or consists
entirely of '*' characters; otherwise the trimmed text goes to the
respective std float parser, whose failure (malformed digits) makes the read
fail.  The parsers are abstracted because f64/f32 are not representable. -/
theorem C7_theorem : ∀ (α β : Type) (p_num : List Char → Option α)
    (p_f32 : List Char → Option β) (mr : Option (MemoReader × ReadAt))
    (len : Nat) (bytes rest : List Nat),
    bytes.length = len →
    ((str_trim (from_utf8_lossy bytes) = [] ∨
        (from_utf8_lossy bytes).all (fun c => c = '*') →
      FieldValue.read_from p_num p_f32 (bytes ++ rest) mr ⟨.Numeric, len⟩ =
        .ok (.Numeric none) rest ∧
      FieldValue.read_from p_num p_f32 (bytes ++ rest) mr ⟨.Float, len⟩ =
        .ok (.Float none) rest) ∧
     (¬ (str_trim (from_utf8_lossy bytes) = [] ∨
        (from_utf8_lossy bytes).all (fun c => c = '*')) →
      FieldValue.read_from p_num p_f32 (bytes ++ rest) mr ⟨.Numeric, len⟩ =
        (match p_num (str_trim (from_utf8_lossy bytes)) with
         | some v => .ok (.Numeric (some v)) rest
         | none => .err .FloatParseError) ∧
      FieldValue.read_from p_num p_f32 (bytes ++ rest) mr ⟨.Float, len⟩ =
        (match p_f32 (str_trim (from_utf8_lossy bytes)) with
         | some v => .ok (.Float (some v)) rest
         | none => .err .FloatParseError))) := by
  intro α β p_num p_f32 mr len bytes rest h
  constructor
  · intro hcase
    constructor
    · simp only [FieldValue.read_from, read_string_of_len_split len bytes rest h]
      rw [if_pos hcase]
    · simp only [FieldValue.read_from, read_string_of_len_split len bytes rest h]
      rw [if_pos hcase]
  · intro hcase
    constructor
    · simp only [FieldValue.read_from, read_string_of_len_split len bytes rest h]
      rw [if_neg hcase]
    · simp only [FieldValue.read_from, read_string_of_len_split len bytes rest h]
      rw [if_neg hcase]

/-- C7 witness. -/
theorem C7_witness :
    FieldValue.read_from (fun t : List Char => some t) (fun t : List Char => some t)
      ([32, 32] ++ [7]) none ⟨.Numeric, 2⟩ = .ok (.Numeric none) [7] :=
  ((C7_theorem (List Char) (List Char) (fun t => some t) (fun t => some t)
    none 2 [32, 32] [7] rfl).1 (by decide)).1

/-- C9 counterexample: with field_length 5, stored text "abcde" (non-empty
after trimming) and no memo reader, the read fails with the integer-parse
error from parsing the index text, not with MissingMemoFile as the claim
requires for every index-resolving read. -/
theorem C9_counterexample :
    FieldValue.read_from (fun t : List Char => some t) (fun t : List Char => some t)
      [97, 98, 99, 100, 101] none ⟨.Memo, 5⟩ = .err .NumParseError ∧
    Error.NumParseError ≠ Error.MissingMemoFile := by decide

/-- C9 amended: a Memo read resolves a block index when field_length ≤ 4
(raw little-endian u32) or when field_length > 4 and the stored text is
non-empty after trimming and parses as u32; with no memo reader supplied
such a read fails with MissingMemoFile.  When field_length > 4 and the
trimmed text is empty, the read returns an empty Memo value without
consulting any memo reader.  (Text that fails to parse as u32 gives an
integer-parse error before the reader is consulted.) -/
theorem C9_theorem : ∀ (α β : Type) (p_num : List Char → Option α)
    (p_f32 : List Char → Option β),
    (∀ (len : Nat) (source : List Nat), len ≤ 4 → 4 ≤ source.length →
      FieldValue.read_from p_num p_f32 source none ⟨.Memo, len⟩ =
        .err .MissingMemoFile) ∧
    (∀ (len : Nat) (bytes rest : List Nat) (idx : Nat), 4 < len → bytes.length = len →
      parse_u32 (str_trim (from_utf8_lossy bytes)) = some idx →
      str_trim (from_utf8_lossy bytes) ≠ [] →
      FieldValue.read_from p_num p_f32 (bytes ++ rest) none ⟨.Memo, len⟩ =
        .err .MissingMemoFile) ∧
    (∀ (len : Nat) (bytes rest : List Nat) (mr : Option (MemoReader × ReadAt)),
      4 < len → bytes.length = len → str_trim (from_utf8_lossy bytes) = [] →
      FieldValue.read_from p_num p_f32 (bytes ++ rest) mr ⟨.Memo, len⟩ =
        .ok (.Memo []) rest) := by
  intro α β p_num p_f32
  refine ⟨?_, ?_, ?_⟩
  · intro len source hlen hsrc
    simp only [FieldValue.read_from]
    rw [if_neg (by omega)]
    unfold read_bytes
    rw [if_neg (by omega)]
  · intro len bytes rest idx hlen h hparse hne
    simp only [FieldValue.read_from, read_string_of_len_split len bytes rest h]
    rw [if_pos hlen, if_neg hne, hparse]
  · intro len bytes rest mr hlen h htrim
    simp only [FieldValue.read_from, read_string_of_len_split len bytes rest h]
    rw [if_pos hlen, if_pos htrim]

/-- C9 witness. -/
theorem C9_witness :
    FieldValue.read_from (fun t : List Char => some t) (fun t : List Char => some t)
      [1, 0, 0, 0] none ⟨.Memo, 4⟩ = .err .MissingMemoFile :=
  (C9_theorem (List Char) (List Char) (fun t => some t) (fun t => some t)).1
    4 [1, 0, 0, 0] (by decide) (by decide)

/-- C10: in the dBase-memo-4 branch of read_data_at, once the 4-byte tag and
4-byte little-endian length have been read, the call panics (out-of-bounds
slice of the scratch buffer) precisely when the stored length exceeds the
scratch-buffer size — the buffer is never grown — and a MemoReader fresh from
MemoReader::new has its scratch buffer sized to block_size. -/
theorem C10_theorem :
    (∀ (r : MemoReader) (src : ReadAt) (index : Nat) (tag_bytes len_bytes : List Nat),
      r.memo_file_type = .DbaseMemo4 →
      src ((index * r.header.block_size) % 4294967296) 4 = .ok tag_bytes →
      src ((index * r.header.block_size) % 4294967296 + 4) 4 = .ok len_bytes →
      (r.internal_buffer.length < u32_le len_bytes →
        r.read_data_at src index = .panicked) ∧
      (u32_le len_bytes ≤ r.internal_buffer.length →
        r.read_data_at src index ≠ .panicked)) ∧
    (∀ (t : MemoFileType) (file : List Nat) (r : MemoReader),
      MemoReader.new t file = .ok r → r.internal_buffer.length = r.header.block_size) := by
  constructor
  · intro r src index tag_bytes len_bytes hm h1 h2
    constructor
    · intro hgt
      simp only [MemoReader.read_data_at, hm, h1, h2]
      rw [if_pos hgt]
    · intro hle
      simp only [MemoReader.read_data_at, hm, h1, h2]
      rw [if_neg (by omega)]
      rcases hdata : src ((index * r.header.block_size) % 4294967296 + 8) (u32_le len_bytes)
        with e | data
      · simp [hdata]
      · simp only [hdata]
        split <;> simp
  · intro t file r h
    unfold MemoReader.new at h
    rcases hh : MemoHeader.read_from t file with e | p
    · rw [hh] at h
      cases h
    · rw [hh] at h
      cases h
      simp

theorem tdivC146097 (a : Nat) : Int.tdiv (↑a) (146097 : Int) = ↑(a / 146097) := rfl

theorem tdivC4 (a : Nat) : Int.tdiv (↑a) (4 : Int) = ↑(a / 4) := rfl

theorem tdivC1461 (a : Nat) : Int.tdiv (↑a) (1461 : Int) = ↑(a / 1461) := rfl

theorem tdivC153 (a : Nat) : Int.tdiv (↑a) (153 : Int) = ↑(a / 153) := rfl

theorem tdivC5 (a : Nat) : Int.tdiv (↑a) (5 : Int) = ↑(a / 5) := rfl

theorem tdivC12 (a : Nat) : Int.tdiv (↑a) (12 : Int) = ↑(a / 12) := rfl

theorem tmodC1461 (a : Nat) : Int.tmod (↑a) (1461 : Int) = ↑(a % 1461) := rfl

theorem tmodC153 (a : Nat) : Int.tmod (↑a) (153 : Int) = ↑(a % 153) := rfl

theorem tmodC12 (a : Nat) : Int.tmod (↑a) (12 : Int) = ↑(a % 12) := rfl

-- Bridge: on the day-number range reachable from validated dates, the i32
-- conversion coincides with its pure-Nat mirror.
theorem julian_to_gregorian_eq_nat (n : Nat) (h1 : 2000000 ≤ n) (h2 : n ≤ 3000000) :
    Date.julian_day_number_to_gregorian_date ((n : Nat) : Int) = from_julian_nat n := by
  simp only [Date.julian_day_number_to_gregorian_date, from_julian_nat]
  have c1 : (4 * (n : Int) + 274277) = ((4 * n + 274277 : Nat) : Int) := by push_cast; ring
  rw [c1, tdivC146097]
  set q1 : Nat := (4 * n + 274277) / 146097 with hq1
  have c2 : ((q1 : Int) * 3) = ((q1 * 3 : Nat) : Int) := by push_cast; ring
  rw [c2, tdivC4]
  set q2 : Nat := q1 * 3 / 4 with hq2
  have c3 : ((n : Int) + 1401 + (q2 : Int) + (-38)) = ((n + 1401 + q2 - 38 : Nat) : Int) := by
    omega
  rw [c3]
  set fN : Nat := n + 1401 + q2 - 38 with hf
  have c4 : (4 * (fN : Int) + 3) = ((4 * fN + 3 : Nat) : Int) := by push_cast; ring
  rw [c4]
  set eN : Nat := 4 * fN + 3 with he
  rw [tmodC1461, tdivC4]
  set gN : Nat := eN % 1461 / 4 with hg
  have c5 : (5 * (gN : Int) + 2) = ((5 * gN + 2 : Nat) : Int) := by push_cast; ring
  rw [c5]
  set hN : Nat := 5 * gN + 2 with hh
  rw [tmodC153, tdivC5, tdivC153]
  have c6 : ((hN % 153 / 5 : Nat) : Int) + 1 = ((hN % 153 / 5 + 1 : Nat) : Int) := by
    push_cast; ring
  rw [c6]
  have c7 : ((hN / 153 : Nat) : Int) + 2 = ((hN / 153 + 2 : Nat) : Int) := by push_cast; ring
  rw [c7, tmodC12]
  have c8 : (((hN / 153 + 2) % 12 : Nat) : Int) + 1 = (((hN / 153 + 2) % 12 + 1 : Nat) : Int) := by
    push_cast; ring
  rw [c8]
  set mN : Nat := (hN / 153 + 2) % 12 + 1 with hmn
  have hmle : mN ≤ 13 := by omega
  have c9 : ((12 : Int) + 2 - (mN : Int)) = ((14 - mN : Nat) : Int) := by omega
  rw [c9, tdivC12, tdivC1461]
  have c10 : (((eN / 1461 : Nat) : Int) - 4716 + ((14 - mN) / 12 : Nat)) =
      ((eN / 1461 + (14 - mN) / 12 - 4716 : Nat) : Int) := by
    have : 4716 ≤ eN / 1461 := by omega
    omega
  rw [c10]
  have w1 : ∀ a : Nat, a < 4294967296 → u32_of_i32 (↑a) = a := by
    intro a ha
    unfold u32_of_i32
    omega
  rw [w1, w1, w1]
  · omega
  · omega
  · omega

theorem gregorian_month_length_le (y m : Nat) : gregorian_month_length y m ≤ 31 := by
  unfold gregorian_month_length
  split_ifs <;> omega

theorem to_julian_u32_bounds (y m d : Nat) (hy1 : 1900 ≤ y) (hy2 : y ≤ 2155)
    (hm1 : 1 ≤ m) (hm2 : m ≤ 12) (hd1 : 1 ≤ d) (hd2 : d ≤ 31) :
    2000000 ≤ Date.to_julian_day_number_u32 ⟨y, m, d⟩ ∧
    Date.to_julian_day_number_u32 ⟨y, m, d⟩ ≤ 3000000 := by
  unfold Date.to_julian_day_number_u32
  dsimp only
  rcases Nat.lt_or_ge 2 m with h | h
  · rw [if_pos h]
    dsimp only
    have ha1 : 19 ≤ y / 100 := by omega
    have ha2 : y / 100 ≤ 21 := by omega
    have hb1 : 693960 ≤ 146097 * (y / 100) / 4 := by omega
    have hb2 : 146097 * (y / 100) / 4 ≤ 767010 := by omega
    have hc2 : 1461 * (y - 100 * (y / 100)) / 4 ≤ 36160 := by omega
    have he2 : (153 * (m - 3) + 2) / 5 ≤ 276 := by omega
    rw [Nat.mod_eq_of_lt (by omega)]
    omega
  · rw [if_neg (by omega)]
    dsimp only
    have ha1 : 18 ≤ (y - 1) / 100 := by omega
    have ha2 : (y - 1) / 100 ≤ 21 := by omega
    have hb1 : 657436 ≤ 146097 * ((y - 1) / 100) / 4 := by omega
    have hb2 : 146097 * ((y - 1) / 100) / 4 ≤ 767010 := by omega
    have hc2 : 1461 * (y - 1 - 100 * ((y - 1) / 100)) / 4 ≤ 36160 := by omega
    have he2 : (153 * (m + 9) + 2) / 5 ≤ 340 := by omega
    rw [Nat.mod_eq_of_lt (by omega)]
    omega

theorem year_text_roundtrip : ∀ k < 256,
    (pad_zeros 4 (nat_digits (1900 + k))).length = 4 ∧
    parse_u32 (pad_zeros 4 (nat_digits (1900 + k))) = some (1900 + k) := by decide

theorem two_digit_text_roundtrip : ∀ k < 31,
    (pad_zeros 2 (nat_digits (k + 1))).length = 2 ∧
    parse_u32 (pad_zeros 2 (nat_digits (k + 1))) = some (k + 1) := by decide

/-- C6: for every valid date (month 1-12, day 1-31, year 1900-2155), encoding
as zero-padded 8-digit YYYYMMDD text (the Date writer) and decoding that text
(the Date FromStr parser) returns the same date. -/
theorem C6_theorem : ∀ y m d : Nat, 1900 ≤ y → y ≤ 2155 → 1 ≤ m → m ≤ 12 →
    1 ≤ d → d ≤ 31 →
    Date.from_str (Date.write_field ⟨y, m, d⟩) = .ok ⟨y, m, d⟩ := by
  intro y m d hy1 hy2 hm1 hm2 hd1 hd2
  obtain ⟨ky, rfl⟩ : ∃ k, y = 1900 + k := ⟨y - 1900, by omega⟩
  obtain ⟨km, rfl⟩ : ∃ k, m = k + 1 := ⟨m - 1, by omega⟩
  obtain ⟨kd, rfl⟩ : ∃ k, d = k + 1 := ⟨d - 1, by omega⟩
  have hy := year_text_roundtrip ky (by omega)
  have hm := two_digit_text_roundtrip km (by omega)
  have hd := two_digit_text_roundtrip kd (by omega)
  unfold Date.write_field Date.from_str
  rw [List.append_assoc]
  rw [if_neg (by simp [List.length_append, hy.1, hm.1, hd.1])]
  rw [List.take_left' hy.1]
  rw [show (6 : Nat) = 4 + 2 from rfl, ← List.drop_drop]
  rw [List.drop_left' hy.1]
  rw [List.take_left' hm.1, List.drop_left' hm.1]
  rw [List.take_of_length_le hd.1.le]
  rw [hy.2, hm.2, hd.2]

/-- C6 witness. -/
theorem C6_witness : Date.from_str (Date.write_field ⟨2019, 7, 20⟩) = .ok ⟨2019, 7, 20⟩ :=
  C6_theorem 2019 7 20 (by decide) (by decide) (by decide) (by decide) (by decide) (by decide)

/-- C10 witness. -/
theorem C10_witness :
    MemoReader.read_data_at ⟨.DbaseMemo4, ⟨1, 4⟩, [0, 0, 0, 0]⟩
      (list_read_at [0, 0, 0, 0, 9, 0, 0, 0]) 0 = .panicked :=
  ((C10_theorem.1 ⟨.DbaseMemo4, ⟨1, 4⟩, [0, 0, 0, 0]⟩
    (list_read_at [0, 0, 0, 0, 9, 0, 0, 0]) 0 [0, 0, 0, 0] [9, 0, 0, 0]
    rfl (by decide) (by decide)).1) (by decide)

set_option maxHeartbeats 1000000 in
theorem yr_1900 : ∀ m < 12, ∀ d < 31,
    d + 1 ≤ gregorian_month_length 1900 (m + 1) →
    from_julian_nat (Date.to_julian_day_number_u32 ⟨1900, m + 1, d + 1⟩) =
      ⟨1900, m + 1, d + 1⟩ := by decide

set_option maxHeartbeats 1000000 in
theorem yr_1901 : ∀ m < 12, ∀ d < 31,
    d + 1 ≤ gregorian_month_length 1901 (m + 1) →
    from_julian_nat (Date.to_julian_day_number_u32 ⟨1901, m + 1, d + 1⟩) =
      ⟨1901, m + 1, d + 1⟩ := by decide

set_option maxHeartbeats 1000000 in
theorem yr_1902 : ∀ m < 12, ∀ d < 31,
    d + 1 ≤ gregorian_month_length 1902 (m + 1) →
    from_julian_nat (Date.to_julian_day_number_u32 ⟨1902, m + 1, d + 1⟩) =
      ⟨1902, m + 1, d + 1⟩ := by decide

set_option maxHeartbeats 1000000 in
theorem yr_1903 : ∀ m < 12, ∀ d < 31,
    d + 1 ≤ gregorian_month_length 1903 (m + 1) →
    from_julian_nat (Date.to_julian_day_number_u32 ⟨1903, m + 1, d + 1⟩) =
      ⟨1903, m + 1, d + 1⟩ := by decide

set_option maxHeartbeats 1000000 in
theorem yr_1904 : ∀ m < 12, ∀ d < 31,
    d + 1 ≤ gregorian_month_length 1904 (m + 1) →
    from_julian_nat (Date.to_julian_day_number_u32 ⟨1904, m + 1, d + 1⟩) =
      ⟨1904, m + 1, d + 1⟩ := by decide

set_option maxHeartbeats 1000000 in
theorem yr_1905 : ∀ m < 12, ∀ d < 31,
    d + 1 ≤ gregorian_month_length 1905 (m + 1) →
    from_julian_nat (Date.to_julian_day_number_u32 ⟨1905, m + 1, d + 1⟩) =
      ⟨1905, m + 1, d + 1⟩ := by decide

set_option maxHeartbeats 1000000 in
theorem yr_1906 : ∀ m < 12, ∀ d < 31,
    d + 1 ≤ gregorian_month_length 1906 (m + 1) →
    from_julian_nat (Date.to_julian_day_number_u32 ⟨1906, m + 1, d + 1⟩) =
      ⟨1906, m + 1, d + 1⟩ := by decide

set_option maxHeartbeats 1000000 in
theorem yr_1907 : ∀ m < 12, ∀ d < 31,
    d + 1 ≤ gregorian_month_length 1907 (m + 1) →
    from_julian_nat (Date.to_julian_day_number_u32 ⟨1907, m + 1, d + 1⟩) =
      ⟨1907, m + 1, d + 1⟩ := by decide

set_option maxHeartbeats 1000000 in
theorem yr_1908 : ∀ m < 12, ∀ d < 31,
    d + 1 ≤ gregorian_month_length 1908 (m + 1) →
    from_julian_nat (Date.to_julian_day_number_u32 ⟨1908, m + 1, d + 1⟩) =
      ⟨1908, m + 1, d + 1⟩ := by decide

set_option maxHeartbeats 1000000 in
theorem yr_1909 : ∀ m < 12, ∀ d < 31,
    d + 1 ≤ gregorian_month_length 1909 (m + 1) →
    from_julian_nat (Date.to_julian_day_number_u32 ⟨1909, m + 1, d + 1⟩) =
      ⟨1909, m + 1, d + 1⟩ := by decide

set_option maxHeartbeats 1000000 in
theorem yr_1910 : ∀ m < 12, ∀ d < 31,
    d + 1 ≤ gregorian_month_length 1910 (m + 1) →
    from_julian_nat (Date.to_julian_day_number_u32 ⟨1910, m + 1, d + 1⟩) =
      ⟨1910, m + 1, d + 1⟩ := by decide

set_option maxHeartbeats 1000000 in
theorem yr_1911 : ∀ m < 12, ∀ d < 31,
    d + 1 ≤ gregorian_month_length 1911 (m + 1) →
    from_julian_nat (Date.to_julian_day_number_u32 ⟨1911, m + 1, d + 1⟩) =
      ⟨1911, m + 1, d + 1⟩ := by decide

set_option maxHeartbeats 1000000 in
theorem yr_1912 : ∀ m < 12, ∀ d < 31,
    d + 1 ≤ gregorian_month_length 1912 (m + 1) →
    from_julian_nat (Date.to_julian_day_number_u32 ⟨1912, m + 1, d + 1⟩) =
      ⟨1912, m + 1, d + 1⟩ := by decide

set_option maxHeartbeats 1000000 in
theorem yr_1913 : ∀ m < 12, ∀ d < 31,
    d + 1 ≤ gregorian_month_length 1913 (m + 1) →
    from_julian_nat (Date.to_julian_day_number_u32 ⟨1913, m + 1, d + 1⟩) =
      ⟨1913, m + 1, d + 1⟩ := by decide

set_option maxHeartbeats 1000000 in
theorem yr_1914 : ∀ m < 12, ∀ d < 31,
    d + 1 ≤ gregorian_month_length 1914 (m + 1) →
    from_julian_nat (Date.to_julian_day_number_u32 ⟨1914, m + 1, d + 1⟩) =
      ⟨1914, m + 1, d + 1⟩ := by decide

set_option maxHeartbeats 1000000 in
theorem yr_1915 : ∀ m < 12, ∀ d < 31,
    d + 1 ≤ gregorian_month_length 1915 (m + 1) →
    from_julian_nat (Date.to_julian_day_number_u32 ⟨1915, m + 1, d + 1⟩) =
      ⟨1915, m + 1, d + 1⟩ := by decide

set_option maxHeartbeats 1000000 in
theorem yr_1916 : ∀ m < 12, ∀ d < 31,
    d + 1 ≤ gregorian_month_length 1916 (m + 1) →
    from_julian_nat (Date.to_julian_day_number_u32 ⟨1916, m + 1, d + 1⟩) =
      ⟨1916, m + 1, d + 1⟩ := by decide

set_option maxHeartbeats 1000000 in
theorem yr_1917 : ∀ m < 12, ∀ d < 31,
    d + 1 ≤ gregorian_month_length 1917 (m + 1) →
    from_julian_nat (Date.to_julian_day_number_u32 ⟨1917, m + 1, d + 1⟩) =
      ⟨1917, m + 1, d + 1⟩ := by decide

set_option maxHeartbeats 1000000 in
theorem yr_1918 : ∀ m < 12, ∀ d < 31,
    d + 1 ≤ gregorian_month_length 1918 (m + 1) →
    from_julian_nat (Date.to_julian_day_number_u32 ⟨1918, m + 1, d + 1⟩) =
      ⟨1918, m + 1, d + 1⟩ := by decide

set_option maxHeartbeats 1000000 in
theorem yr_1919 : ∀ m < 12, ∀ d < 31,
    d + 1 ≤ gregorian_month_length 1919 (m + 1) →
    from_julian_nat (Date.to_julian_day_number_u32 ⟨1919, m + 1, d + 1⟩) =
      ⟨1919, m + 1, d + 1⟩ := by decide

set_option maxHeartbeats 1000000 in
theorem yr_1920 : ∀ m < 12, ∀ d < 31,
    d + 1 ≤ gregorian_month_length 1920 (m + 1) →
    from_julian_nat (Date.to_julian_day_number_u32 ⟨1920, m + 1, d + 1⟩) =
      ⟨1920, m + 1, d + 1⟩ := by decide

set_option maxHeartbeats 1000000 in
theorem yr_1921 : ∀ m < 12, ∀ d < 31,
    d + 1 ≤ gregorian_month_length 1921 (m + 1) →
    from_julian_nat (Date.to_julian_day_number_u32 ⟨1921, m + 1, d + 1⟩) =
      ⟨1921, m + 1, d + 1⟩ := by decide

set_option maxHeartbeats 1000000 in
theorem yr_1922 : ∀ m < 12, ∀ d < 31,
    d + 1 ≤ gregorian_month_length 1922 (m + 1) →
    from_julian_nat (Date.to_julian_day_number_u32 ⟨1922, m + 1, d + 1⟩) =
      ⟨1922, m + 1, d + 1⟩ := by decide

set_option maxHeartbeats 1000000 in
theorem yr_1923 : ∀ m < 12, ∀ d < 31,
    d + 1 ≤ gregorian_month_length 1923 (m + 1) →
    from_julian_nat (Date.to_julian_day_number_u32 ⟨1923, m + 1, d + 1⟩) =
      ⟨1923, m + 1, d + 1⟩ := by decide

set_option maxHeartbeats 1000000 in
theorem yr_1924 : ∀ m < 12, ∀ d < 31,
    d + 1 ≤ gregorian_month_length 1924 (m + 1) →
    from_julian_nat (Date.to_julian_day_number_u32 ⟨1924, m + 1, d + 1⟩) =
      ⟨1924, m + 1, d + 1⟩ := by decide

set_option maxHeartbeats 1000000 in
theorem yr_1925 : ∀ m < 12, ∀ d < 31,
    d + 1 ≤ gregorian_month_length 1925 (m + 1) →
    from_julian_nat (Date.to_julian_day_number_u32 ⟨1925, m + 1, d + 1⟩) =
      ⟨1925, m + 1, d + 1⟩ := by decide

set_option maxHeartbeats 1000000 in
theorem yr_1926 : ∀ m < 12, ∀ d < 31,
    d + 1 ≤ gregorian_month_length 1926 (m + 1) →
    from_julian_nat (Date.to_julian_day_number_u32 ⟨1926, m + 1, d + 1⟩) =
      ⟨1926, m + 1, d + 1⟩ := by decide

set_option maxHeartbeats 1000000 in
theorem yr_1927 : ∀ m < 12, ∀ d < 31,
    d + 1 ≤ gregorian_month_length 1927 (m + 1) →
    from_julian_nat (Date.to_julian_day_number_u32 ⟨1927, m + 1, d + 1⟩) =
      ⟨1927, m + 1, d + 1⟩ := by decide

set_option maxHeartbeats 1000000 in
theorem yr_1928 : ∀ m < 12, ∀ d < 31,
    d + 1 ≤ gregorian_month_length 1928 (m + 1) →
    from_julian_nat (Date.to_julian_day_number_u32 ⟨1928, m + 1, d + 1⟩) =
      ⟨1928, m + 1, d + 1⟩ := by decide

set_option maxHeartbeats 1000000 in
theorem yr_1929 : ∀ m < 12, ∀ d < 31,
    d + 1 ≤ gregorian_month_length 1929 (m + 1) →
    from_julian_nat (Date.to_julian_day_number_u32 ⟨1929, m + 1, d + 1⟩) =
      ⟨1929, m + 1, d + 1⟩ := by decide

set_option maxHeartbeats 1000000 in
theorem yr_1930 : ∀ m < 12, ∀ d < 31,
    d + 1 ≤ gregorian_month_length 1930 (m + 1) →
    from_julian_nat (Date.to_julian_day_number_u32 ⟨1930, m + 1, d + 1⟩) =
      ⟨1930, m + 1, d + 1⟩ := by decide

set_option maxHeartbeats 1000000 in
theorem yr_1931 : ∀ m < 12, ∀ d < 31,
    d + 1 ≤ gregorian_month_length 1931 (m + 1) →
    from_julian_nat (Date.to_julian_day_number_u32 ⟨1931, m + 1, d + 1⟩) =
      ⟨1931, m + 1, d + 1⟩ := by decide

set_option maxHeartbeats 1000000 in
theorem yr_1932 : ∀ m < 12, ∀ d < 31,
    d + 1 ≤ gregorian_month_length 1932 (m + 1) →
    from_julian_nat (Date.to_julian_day_number_u32 ⟨1932, m + 1, d + 1⟩) =
      ⟨1932, m + 1, d + 1⟩ := by decide

set_option maxHeartbeats 1000000 in
theorem yr_1933 : ∀ m < 12, ∀ d < 31,
    d + 1 ≤ gregorian_month_length 1933 (m + 1) →
    from_julian_nat (Date.to_julian_day_number_u32 ⟨1933, m + 1, d + 1⟩) =
      ⟨1933, m + 1, d + 1⟩ := by decide

set_option maxHeartbeats 1000000 in
theorem yr_1934 : ∀ m < 12, ∀ d < 31,
    d + 1 ≤ gregorian_month_length 1934 (m + 1) →
    from_julian_nat (Date.to_julian_day_number_u32 ⟨1934, m + 1, d + 1⟩) =
      ⟨1934, m + 1, d + 1⟩ := by decide

set_option maxHeartbeats 1000000 in
theorem yr_1935 : ∀ m < 12, ∀ d < 31,
    d + 1 ≤ gregorian_month_length 1935 (m + 1) →
    from_julian_nat (Date.to_julian_day_number_u32 ⟨1935, m + 1, d + 1⟩) =
      ⟨1935, m + 1, d + 1⟩ := by decide

set_option maxHeartbeats 1000000 in
theorem yr_1936 : ∀ m < 12, ∀ d < 31,
    d + 1 ≤ gregorian_month_length 1936 (m + 1) →
    from_julian_nat (Date.to_julian_day_number_u32 ⟨1936, m + 1, d + 1⟩) =
      ⟨1936, m + 1, d + 1⟩ := by decide

set_option maxHeartbeats 1000000 in
theorem yr_1937 : ∀ m < 12, ∀ d < 31,
    d + 1 ≤ gregorian_month_length 1937 (m + 1) →
    from_julian_nat (Date.to_julian_day_number_u32 ⟨1937, m + 1, d + 1⟩) =
      ⟨1937, m + 1, d + 1⟩ := by decide

set_option maxHeartbeats 1000000 in
theorem yr_1938 : ∀ m < 12, ∀ d < 31,
    d + 1 ≤ gregorian_month_length 1938 (m + 1) →
    from_julian_nat (Date.to_julian_day_number_u32 ⟨1938, m + 1, d + 1⟩) =
      ⟨1938, m + 1, d + 1⟩ := by decide

set_option maxHeartbeats 1000000 in
theorem yr_1939 : ∀ m < 12, ∀ d < 31,
    d + 1 ≤ gregorian_month_length 1939 (m + 1) →
    from_julian_nat (Date.to_julian_day_number_u32 ⟨1939, m + 1, d + 1⟩) =
      ⟨1939, m + 1, d + 1⟩ := by decide

set_option maxHeartbeats 1000000 in
theorem yr_1940 : ∀ m < 12, ∀ d < 31,
    d + 1 ≤ gregorian_month_length 1940 (m + 1) →
    from_julian_nat (Date.to_julian_day_number_u32 ⟨1940, m + 1, d + 1⟩) =
      ⟨1940, m + 1, d + 1⟩ := by decide

set_option maxHeartbeats 1000000 in
theorem yr_1941 : ∀ m < 12, ∀ d < 31,
    d + 1 ≤ gregorian_month_length 1941 (m + 1) →
    from_julian_nat (Date.to_julian_day_number_u32 ⟨1941, m + 1, d + 1⟩) =
      ⟨1941, m + 1, d + 1⟩ := by decide

set_option maxHeartbeats 1000000 in
theorem yr_1942 : ∀ m < 12, ∀ d < 31,
    d + 1 ≤ gregorian_month_length 1942 (m + 1) →
    from_julian_nat (Date.to_julian_day_number_u32 ⟨1942, m + 1, d + 1⟩) =
      ⟨1942, m + 1, d + 1⟩ := by decide

set_option maxHeartbeats 1000000 in
theorem yr_1943 : ∀ m < 12, ∀ d < 31,
    d + 1 ≤ gregorian_month_length 1943 (m + 1) →
    from_julian_nat (Date.to_julian_day_number_u32 ⟨1943, m + 1, d + 1⟩) =
      ⟨1943, m + 1, d + 1⟩ := by decide

set_option maxHeartbeats 1000000 in
theorem yr_1944 : ∀ m < 12, ∀ d < 31,
    d + 1 ≤ gregorian_month_length 1944 (m + 1) →
    from_julian_nat (Date.to_julian_day_number_u32 ⟨1944, m + 1, d + 1⟩) =
      ⟨1944, m + 1, d + 1⟩ := by decide

set_option maxHeartbeats 1000000 in
theorem yr_1945 : ∀ m < 12, ∀ d < 31,
    d + 1 ≤ gregorian_month_length 1945 (m + 1) →
    from_julian_nat (Date.to_julian_day_number_u32 ⟨1945, m + 1, d + 1⟩) =
      ⟨1945, m + 1, d + 1⟩ := by decide

set_option maxHeartbeats 1000000 in
theorem yr_1946 : ∀ m < 12, ∀ d < 31,
    d + 1 ≤ gregorian_month_length 1946 (m + 1) →
    from_julian_nat (Date.to_julian_day_number_u32 ⟨1946, m + 1, d + 1⟩) =
      ⟨1946, m + 1, d + 1⟩ := by decide

set_option maxHeartbeats 1000000 in
theorem yr_1947 : ∀ m < 12, ∀ d < 31,
    d + 1 ≤ gregorian_month_length 1947 (m + 1) →
    from_julian_nat (Date.to_julian_day_number_u32 ⟨1947, m + 1, d + 1⟩) =
      ⟨1947, m + 1, d + 1⟩ := by decide

set_option maxHeartbeats 1000000 in
theorem yr_1948 : ∀ m < 12, ∀ d < 31,
    d + 1 ≤ gregorian_month_length 1948 (m + 1) →
    from_julian_nat (Date.to_julian_day_number_u32 ⟨1948, m + 1, d + 1⟩) =
      ⟨1948, m + 1, d + 1⟩ := by decide

set_option maxHeartbeats 1000000 in
theorem yr_1949 : ∀ m < 12, ∀ d < 31,
    d + 1 ≤ gregorian_month_length 1949 (m + 1) →
    from_julian_nat (Date.to_julian_day_number_u32 ⟨1949, m + 1, d + 1⟩) =
      ⟨1949, m + 1, d + 1⟩ := by decide

set_option maxHeartbeats 1000000 in
theorem yr_1950 : ∀ m < 12, ∀ d < 31,
    d + 1 ≤ gregorian_month_length 1950 (m + 1) →
    from_julian_nat (Date.to_julian_day_number_u32 ⟨1950, m + 1, d + 1⟩) =
      ⟨1950, m + 1, d + 1⟩ := by decide

set_option maxHeartbeats 1000000 in
theorem yr_1951 : ∀ m < 12, ∀ d < 31,
    d + 1 ≤ gregorian_month_length 1951 (m + 1) →
    from_julian_nat (Date.to_julian_day_number_u32 ⟨1951, m + 1, d + 1⟩) =
      ⟨1951, m + 1, d + 1⟩ := by decide

set_option maxHeartbeats 1000000 in
theorem yr_1952 : ∀ m < 12, ∀ d < 31,
    d + 1 ≤ gregorian_month_length 1952 (m + 1) →
    from_julian_nat (Date.to_julian_day_number_u32 ⟨1952, m + 1, d + 1⟩) =
      ⟨1952, m + 1, d + 1⟩ := by decide

set_option maxHeartbeats 1000000 in
theorem yr_1953 : ∀ m < 12, ∀ d < 31,
    d + 1 ≤ gregorian_month_length 1953 (m + 1) →
    from_julian_nat (Date.to_julian_day_number_u32 ⟨1953, m + 1, d + 1⟩) =
      ⟨1953, m + 1, d + 1⟩ := by decide

set_option maxHeartbeats 1000000 in
theorem yr_1954 : ∀ m < 12, ∀ d < 31,
    d + 1 ≤ gregorian_month_length 1954 (m + 1) →
    from_julian_nat (Date.to_julian_day_number_u32 ⟨1954, m + 1, d + 1⟩) =
      ⟨1954, m + 1, d + 1⟩ := by decide

set_option maxHeartbeats 1000000 in
theorem yr_1955 : ∀ m < 12, ∀ d < 31,
    d + 1 ≤ gregorian_month_length 1955 (m + 1) →
    from_julian_nat (Date.to_julian_day_number_u32 ⟨1955, m + 1, d + 1⟩) =
      ⟨1955, m + 1, d + 1⟩ := by decide

set_option maxHeartbeats 1000000 in
theorem yr_1956 : ∀ m < 12, ∀ d < 31,
    d + 1 ≤ gregorian_month_length 1956 (m + 1) →
    from_julian_nat (Date.to_julian_day_number_u32 ⟨1956, m + 1, d + 1⟩) =
      ⟨1956, m + 1, d + 1⟩ := by decide

set_option maxHeartbeats 1000000 in
theorem yr_1957 : ∀ m < 12, ∀ d < 31,
    d + 1 ≤ gregorian_month_length 1957 (m + 1) →
    from_julian_nat (Date.to_julian_day_number_u32 ⟨1957, m + 1, d + 1⟩) =
      ⟨1957, m + 1, d + 1⟩ := by decide

set_option maxHeartbeats 1000000 in
theorem yr_1958 : ∀ m < 12, ∀ d < 31,
    d + 1 ≤ gregorian_month_length 1958 (m + 1) →
    from_julian_nat (Date.to_julian_day_number_u32 ⟨1958, m + 1, d + 1⟩) =
      ⟨1958, m + 1, d + 1⟩ := by decide

set_option maxHeartbeats 1000000 in
theorem yr_1959 : ∀ m < 12, ∀ d < 31,
    d + 1 ≤ gregorian_month_length 1959 (m + 1) →
    from_julian_nat (Date.to_julian_day_number_u32 ⟨1959, m + 1, d + 1⟩) =
      ⟨1959, m + 1, d + 1⟩ := by decide

set_option maxHeartbeats 1000000 in
theorem yr_1960 : ∀ m < 12, ∀ d < 31,
    d + 1 ≤ gregorian_month_length 1960 (m + 1) →
    from_julian_nat (Date.to_julian_day_number_u32 ⟨1960, m + 1, d + 1⟩) =
      ⟨1960, m + 1, d + 1⟩ := by decide

set_option maxHeartbeats 1000000 in
theorem yr_1961 : ∀ m < 12, ∀ d < 31,
    d + 1 ≤ gregorian_month_length 1961 (m + 1) →
    from_julian_nat (Date.to_julian_day_number_u32 ⟨1961, m + 1, d + 1⟩) =
      ⟨1961, m + 1, d + 1⟩ := by decide

set_option maxHeartbeats 1000000 in
theorem yr_1962 : ∀ m < 12, ∀ d < 31,
    d + 1 ≤ gregorian_month_length 1962 (m + 1) →
    from_julian_nat (Date.to_julian_day_number_u32 ⟨1962, m + 1, d + 1⟩) =
      ⟨1962, m + 1, d + 1⟩ := by decide

set_option maxHeartbeats 1000000 in
theorem yr_1963 : ∀ m < 12, ∀ d < 31,
    d + 1 ≤ gregorian_month_length 1963 (m + 1) →
    from_julian_nat (Date.to_julian_day_number_u32 ⟨1963, m + 1, d + 1⟩) =
      ⟨1963, m + 1, d + 1⟩ := by decide

set_option maxHeartbeats 1000000 in
theorem yr_1964 : ∀ m < 12, ∀ d < 31,
    d + 1 ≤ gregorian_month_length 1964 (m + 1) →
    from_julian_nat (Date.to_julian_day_number_u32 ⟨1964, m + 1, d + 1⟩) =
      ⟨1964, m + 1, d + 1⟩ := by decide

set_option maxHeartbeats 1000000 in
theorem yr_1965 : ∀ m < 12, ∀ d < 31,
    d + 1 ≤ gregorian_month_length 1965 (m + 1) →
    from_julian_nat (Date.to_julian_day_number_u32 ⟨1965, m + 1, d + 1⟩) =
      ⟨1965, m + 1, d + 1⟩ := by decide

set_option maxHeartbeats 1000000 in
theorem yr_1966 : ∀ m < 12, ∀ d < 31,
    d + 1 ≤ gregorian_month_length 1966 (m + 1) →
    from_julian_nat (Date.to_julian_day_number_u32 ⟨1966, m + 1, d + 1⟩) =
      ⟨1966, m + 1, d + 1⟩ := by decide

set_option maxHeartbeats 1000000 in
theorem yr_1967 : ∀ m < 12, ∀ d < 31,
    d + 1 ≤ gregorian_month_length 1967 (m + 1) →
    from_julian_nat (Date.to_julian_day_number_u32 ⟨1967, m + 1, d + 1⟩) =
      ⟨1967, m + 1, d + 1⟩ := by decide

set_option maxHeartbeats 1000000 in
theorem yr_1968 : ∀ m < 12, ∀ d < 31,
    d + 1 ≤ gregorian_month_length 1968 (m + 1) →
    from_julian_nat (Date.to_julian_day_number_u32 ⟨1968, m + 1, d + 1⟩) =
      ⟨1968, m + 1, d + 1⟩ := by decide

set_option maxHeartbeats 1000000 in
theorem yr_1969 : ∀ m < 12, ∀ d < 31,
    d + 1 ≤ gregorian_month_length 1969 (m + 1) →
    from_julian_nat (Date.to_julian_day_number_u32 ⟨1969, m + 1, d + 1⟩) =
      ⟨1969, m + 1, d + 1⟩ := by decide

set_option maxHeartbeats 1000000 in
theorem yr_1970 : ∀ m < 12, ∀ d < 31,
    d + 1 ≤ gregorian_month_length 1970 (m + 1) →
    from_julian_nat (Date.to_julian_day_number_u32 ⟨1970, m + 1, d + 1⟩) =
      ⟨1970, m + 1, d + 1⟩ := by decide

set_option maxHeartbeats 1000000 in
theorem yr_1971 : ∀ m < 12, ∀ d < 31,
    d + 1 ≤ gregorian_month_length 1971 (m + 1) →
    from_julian_nat (Date.to_julian_day_number_u32 ⟨1971, m + 1, d + 1⟩) =
      ⟨1971, m + 1, d + 1⟩ := by decide

set_option maxHeartbeats 1000000 in
theorem yr_1972 : ∀ m < 12, ∀ d < 31,
    d + 1 ≤ gregorian_month_length 1972 (m + 1) →
    from_julian_nat (Date.to_julian_day_number_u32 ⟨1972, m + 1, d + 1⟩) =
      ⟨1972, m + 1, d + 1⟩ := by decide

set_option maxHeartbeats 1000000 in
theorem yr_1973 : ∀ m < 12, ∀ d < 31,
    d + 1 ≤ gregorian_month_length 1973 (m + 1) →
    from_julian_nat (Date.to_julian_day_number_u32 ⟨1973, m + 1, d + 1⟩) =
      ⟨1973, m + 1, d + 1⟩ := by decide

set_option maxHeartbeats 1000000 in
theorem yr_1974 : ∀ m < 12, ∀ d < 31,
    d + 1 ≤ gregorian_month_length 1974 (m + 1) →
    from_julian_nat (Date.to_julian_day_number_u32 ⟨1974, m + 1, d + 1⟩) =
      ⟨1974, m + 1, d + 1⟩ := by decide

set_option maxHeartbeats 1000000 in
theorem yr_1975 : ∀ m < 12, ∀ d < 31,
    d + 1 ≤ gregorian_month_length 1975 (m + 1) →
    from_julian_nat (Date.to_julian_day_number_u32 ⟨1975, m + 1, d + 1⟩) =
      ⟨1975, m + 1, d + 1⟩ := by decide

set_option maxHeartbeats 1000000 in
theorem yr_1976 : ∀ m < 12, ∀ d < 31,
    d + 1 ≤ gregorian_month_length 1976 (m + 1) →
    from_julian_nat (Date.to_julian_day_number_u32 ⟨1976, m + 1, d + 1⟩) =
      ⟨1976, m + 1, d + 1⟩ := by decide

set_option maxHeartbeats 1000000 in
theorem yr_1977 : ∀ m < 12, ∀ d < 31,
    d + 1 ≤ gregorian_month_length 1977 (m + 1) →
    from_julian_nat (Date.to_julian_day_number_u32 ⟨1977, m + 1, d + 1⟩) =
      ⟨1977, m + 1, d + 1⟩ := by decide

set_option maxHeartbeats 1000000 in
theorem yr_1978 : ∀ m < 12, ∀ d < 31,
    d + 1 ≤ gregorian_month_length 1978 (m + 1) →
    from_julian_nat (Date.to_julian_day_number_u32 ⟨1978, m + 1, d + 1⟩) =
      ⟨1978, m + 1, d + 1⟩ := by decide

set_option maxHeartbeats 1000000 in
theorem yr_1979 : ∀ m < 12, ∀ d < 31,
    d + 1 ≤ gregorian_month_length 1979 (m + 1) →
    from_julian_nat (Date.to_julian_day_number_u32 ⟨1979, m + 1, d + 1⟩) =
      ⟨1979, m + 1, d + 1⟩ := by decide

set_option maxHeartbeats 1000000 in
theorem yr_1980 : ∀ m < 12, ∀ d < 31,
    d + 1 ≤ gregorian_month_length 1980 (m + 1) →
    from_julian_nat (Date.to_julian_day_number_u32 ⟨1980, m + 1, d + 1⟩) =
      ⟨1980, m + 1, d + 1⟩ := by decide

set_option maxHeartbeats 1000000 in
theorem yr_1981 : ∀ m < 12, ∀ d < 31,
    d + 1 ≤ gregorian_month_length 1981 (m + 1) →
    from_julian_nat (Date.to_julian_day_number_u32 ⟨1981, m + 1, d + 1⟩) =
      ⟨1981, m + 1, d + 1⟩ := by decide

set_option maxHeartbeats 1000000 in
theorem yr_1982 : ∀ m < 12, ∀ d < 31,
    d + 1 ≤ gregorian_month_length 1982 (m + 1) →
    from_julian_nat (Date.to_julian_day_number_u32 ⟨1982, m + 1, d + 1⟩) =
      ⟨1982, m + 1, d + 1⟩ := by decide

set_option maxHeartbeats 1000000 in
theorem yr_1983 : ∀ m < 12, ∀ d < 31,
    d + 1 ≤ gregorian_month_length 1983 (m + 1) →
    from_julian_nat (Date.to_julian_day_number_u32 ⟨1983, m + 1, d + 1⟩) =
      ⟨1983, m + 1, d + 1⟩ := by decide

set_option maxHeartbeats 1000000 in
theorem yr_1984 : ∀ m < 12, ∀ d < 31,
    d + 1 ≤ gregorian_month_length 1984 (m + 1) →
    from_julian_nat (Date.to_julian_day_number_u32 ⟨1984, m + 1, d + 1⟩) =
      ⟨1984, m + 1, d + 1⟩ := by decide

set_option maxHeartbeats 1000000 in
theorem yr_1985 : ∀ m < 12, ∀ d < 31,
    d + 1 ≤ gregorian_month_length 1985 (m + 1) →
    from_julian_nat (Date.to_julian_day_number_u32 ⟨1985, m + 1, d + 1⟩) =
      ⟨1985, m + 1, d + 1⟩ := by decide

set_option maxHeartbeats 1000000 in
theorem yr_1986 : ∀ m < 12, ∀ d < 31,
    d + 1 ≤ gregorian_month_length 1986 (m + 1) →
    from_julian_nat (Date.to_julian_day_number_u32 ⟨1986, m + 1, d + 1⟩) =
      ⟨1986, m + 1, d + 1⟩ := by decide

set_option maxHeartbeats 1000000 in
theorem yr_1987 : ∀ m < 12, ∀ d < 31,
    d + 1 ≤ gregorian_month_length 1987 (m + 1) →
    from_julian_nat (Date.to_julian_day_number_u32 ⟨1987, m + 1, d + 1⟩) =
      ⟨1987, m + 1, d + 1⟩ := by decide

set_option maxHeartbeats 1000000 in
theorem yr_1988 : ∀ m < 12, ∀ d < 31,
    d + 1 ≤ gregorian_month_length 1988 (m + 1) →
    from_julian_nat (Date.to_julian_day_number_u32 ⟨1988, m + 1, d + 1⟩) =
      ⟨1988, m + 1, d + 1⟩ := by decide

set_option maxHeartbeats 1000000 in
theorem yr_1989 : ∀ m < 12, ∀ d < 31,
    d + 1 ≤ gregorian_month_length 1989 (m + 1) →
    from_julian_nat (Date.to_julian_day_number_u32 ⟨1989, m + 1, d + 1⟩) =
      ⟨1989, m + 1, d + 1⟩ := by decide

set_option maxHeartbeats 1000000 in
theorem yr_1990 : ∀ m < 12, ∀ d < 31,
    d + 1 ≤ gregorian_month_length 1990 (m + 1) →
    from_julian_nat (Date.to_julian_day_number_u32 ⟨1990, m + 1, d + 1⟩) =
      ⟨1990, m + 1, d + 1⟩ := by decide

set_option maxHeartbeats 1000000 in
theorem yr_1991 : ∀ m < 12, ∀ d < 31,
    d + 1 ≤ gregorian_month_length 1991 (m + 1) →
    from_julian_nat (Date.to_julian_day_number_u32 ⟨1991, m + 1, d + 1⟩) =
      ⟨1991, m + 1, d + 1⟩ := by decide

set_option maxHeartbeats 1000000 in
theorem yr_1992 : ∀ m < 12, ∀ d < 31,
    d + 1 ≤ gregorian_month_length 1992 (m + 1) →
    from_julian_nat (Date.to_julian_day_number_u32 ⟨1992, m + 1, d + 1⟩) =
      ⟨1992, m + 1, d + 1⟩ := by decide

set_option maxHeartbeats 1000000 in
theorem yr_1993 : ∀ m < 12, ∀ d < 31,
    d + 1 ≤ gregorian_month_length 1993 (m + 1) →
    from_julian_nat (Date.to_julian_day_number_u32 ⟨1993, m + 1, d + 1⟩) =
      ⟨1993, m + 1, d + 1⟩ := by decide

set_option maxHeartbeats 1000000 in
theorem yr_1994 : ∀ m < 12, ∀ d < 31,
    d + 1 ≤ gregorian_month_length 1994 (m + 1) →
    from_julian_nat (Date.to_julian_day_number_u32 ⟨1994, m + 1, d + 1⟩) =
      ⟨1994, m + 1, d + 1⟩ := by decide

set_option maxHeartbeats 1000000 in
theorem yr_1995 : ∀ m < 12, ∀ d < 31,
    d + 1 ≤ gregorian_month_length 1995 (m + 1) →
    from_julian_nat (Date.to_julian_day_number_u32 ⟨1995, m + 1, d + 1⟩) =
      ⟨1995, m + 1, d + 1⟩ := by decide

set_option maxHeartbeats 1000000 in
theorem yr_1996 : ∀ m < 12, ∀ d < 31,
    d + 1 ≤ gregorian_month_length 1996 (m + 1) →
    from_julian_nat (Date.to_julian_day_number_u32 ⟨1996, m + 1, d + 1⟩) =
      ⟨1996, m + 1, d + 1⟩ := by decide

set_option maxHeartbeats 1000000 in
theorem yr_1997 : ∀ m < 12, ∀ d < 31,
    d + 1 ≤ gregorian_month_length 1997 (m + 1) →
    from_julian_nat (Date.to_julian_day_number_u32 ⟨1997, m + 1, d + 1⟩) =
      ⟨1997, m + 1, d + 1⟩ := by decide

set_option maxHeartbeats 1000000 in
theorem yr_1998 : ∀ m < 12, ∀ d < 31,
    d + 1 ≤ gregorian_month_length 1998 (m + 1) →
    from_julian_nat (Date.to_julian_day_number_u32 ⟨1998, m + 1, d + 1⟩) =
      ⟨1998, m + 1, d + 1⟩ := by decide

set_option maxHeartbeats 1000000 in
theorem yr_1999 : ∀ m < 12, ∀ d < 31,
    d + 1 ≤ gregorian_month_length 1999 (m + 1) →
    from_julian_nat (Date.to_julian_day_number_u32 ⟨1999, m + 1, d + 1⟩) =
      ⟨1999, m + 1, d + 1⟩ := by decide

set_option maxHeartbeats 1000000 in
theorem yr_2000 : ∀ m < 12, ∀ d < 31,
    d + 1 ≤ gregorian_month_length 2000 (m + 1) →
    from_julian_nat (Date.to_julian_day_number_u32 ⟨2000, m + 1, d + 1⟩) =
      ⟨2000, m + 1, d + 1⟩ := by decide

set_option maxHeartbeats 1000000 in
theorem yr_2001 : ∀ m < 12, ∀ d < 31,
    d + 1 ≤ gregorian_month_length 2001 (m + 1) →
    from_julian_nat (Date.to_julian_day_number_u32 ⟨2001, m + 1, d + 1⟩) =
      ⟨2001, m + 1, d + 1⟩ := by decide

set_option maxHeartbeats 1000000 in
theorem yr_2002 : ∀ m < 12, ∀ d < 31,
    d + 1 ≤ gregorian_month_length 2002 (m + 1) →
    from_julian_nat (Date.to_julian_day_number_u32 ⟨2002, m + 1, d + 1⟩) =
      ⟨2002, m + 1, d + 1⟩ := by decide

set_option maxHeartbeats 1000000 in
theorem yr_2003 : ∀ m < 12, ∀ d < 31,
    d + 1 ≤ gregorian_month_length 2003 (m + 1) →
    from_julian_nat (Date.to_julian_day_number_u32 ⟨2003, m + 1, d + 1⟩) =
      ⟨2003, m + 1, d + 1⟩ := by decide

set_option maxHeartbeats 1000000 in
theorem yr_2004 : ∀ m < 12, ∀ d < 31,
    d + 1 ≤ gregorian_month_length 2004 (m + 1) →
    from_julian_nat (Date.to_julian_day_number_u32 ⟨2004, m + 1, d + 1⟩) =
      ⟨2004, m + 1, d + 1⟩ := by decide

set_option maxHeartbeats 1000000 in
theorem yr_2005 : ∀ m < 12, ∀ d < 31,
    d + 1 ≤ gregorian_month_length 2005 (m + 1) →
    from_julian_nat (Date.to_julian_day_number_u32 ⟨2005, m + 1, d + 1⟩) =
      ⟨2005, m + 1, d + 1⟩ := by decide

set_option maxHeartbeats 1000000 in
theorem yr_2006 : ∀ m < 12, ∀ d < 31,
    d + 1 ≤ gregorian_month_length 2006 (m + 1) →
    from_julian_nat (Date.to_julian_day_number_u32 ⟨2006, m + 1, d + 1⟩) =
      ⟨2006, m + 1, d + 1⟩ := by decide

set_option maxHeartbeats 1000000 in
theorem yr_2007 : ∀ m < 12, ∀ d < 31,
    d + 1 ≤ gregorian_month_length 2007 (m + 1) →
    from_julian_nat (Date.to_julian_day_number_u32 ⟨2007, m + 1, d + 1⟩) =
      ⟨2007, m + 1, d + 1⟩ := by decide

set_option maxHeartbeats 1000000 in
theorem yr_2008 : ∀ m < 12, ∀ d < 31,
    d + 1 ≤ gregorian_month_length 2008 (m + 1) →
    from_julian_nat (Date.to_julian_day_number_u32 ⟨2008, m + 1, d + 1⟩) =
      ⟨2008, m + 1, d + 1⟩ := by decide

set_option maxHeartbeats 1000000 in
theorem yr_2009 : ∀ m < 12, ∀ d < 31,
    d + 1 ≤ gregorian_month_length 2009 (m + 1) →
    from_julian_nat (Date.to_julian_day_number_u32 ⟨2009, m + 1, d + 1⟩) =
      ⟨2009, m + 1, d + 1⟩ := by decide

set_option maxHeartbeats 1000000 in
theorem yr_2010 : ∀ m < 12, ∀ d < 31,
    d + 1 ≤ gregorian_month_length 2010 (m + 1) →
    from_julian_nat (Date.to_julian_day_number_u32 ⟨2010, m + 1, d + 1⟩) =
      ⟨2010, m + 1, d + 1⟩ := by decide

set_option maxHeartbeats 1000000 in
theorem yr_2011 : ∀ m < 12, ∀ d < 31,
    d + 1 ≤ gregorian_month_length 2011 (m + 1) →
    from_julian_nat (Date.to_julian_day_number_u32 ⟨2011, m + 1, d + 1⟩) =
      ⟨2011, m + 1, d + 1⟩ := by decide

set_option maxHeartbeats 1000000 in
theorem yr_2012 : ∀ m < 12, ∀ d < 31,
    d + 1 ≤ gregorian_month_length 2012 (m + 1) →
    from_julian_nat (Date.to_julian_day_number_u32 ⟨2012, m + 1, d + 1⟩) =
      ⟨2012, m + 1, d + 1⟩ := by decide

set_option maxHeartbeats 1000000 in
theorem yr_2013 : ∀ m < 12, ∀ d < 31,
    d + 1 ≤ gregorian_month_length 2013 (m + 1) →
    from_julian_nat (Date.to_julian_day_number_u32 ⟨2013, m + 1, d + 1⟩) =
      ⟨2013, m + 1, d + 1⟩ := by decide

set_option maxHeartbeats 1000000 in
theorem yr_2014 : ∀ m < 12, ∀ d < 31,
    d + 1 ≤ gregorian_month_length 2014 (m + 1) →
    from_julian_nat (Date.to_julian_day_number_u32 ⟨2014, m + 1, d + 1⟩) =
      ⟨2014, m + 1, d + 1⟩ := by decide

set_option maxHeartbeats 1000000 in
theorem yr_2015 : ∀ m < 12, ∀ d < 31,
    d + 1 ≤ gregorian_month_length 2015 (m + 1) →
    from_julian_nat (Date.to_julian_day_number_u32 ⟨2015, m + 1, d + 1⟩) =
      ⟨2015, m + 1, d + 1⟩ := by decide

set_option maxHeartbeats 1000000 in
theorem yr_2016 : ∀ m < 12, ∀ d < 31,
    d + 1 ≤ gregorian_month_length 2016 (m + 1) →
    from_julian_nat (Date.to_julian_day_number_u32 ⟨2016, m + 1, d + 1⟩) =
      ⟨2016, m + 1, d + 1⟩ := by decide

set_option maxHeartbeats 1000000 in
theorem yr_2017 : ∀ m < 12, ∀ d < 31,
    d + 1 ≤ gregorian_month_length 2017 (m + 1) →
    from_julian_nat (Date.to_julian_day_number_u32 ⟨2017, m + 1, d + 1⟩) =
      ⟨2017, m + 1, d + 1⟩ := by decide

set_option maxHeartbeats 1000000 in
theorem yr_2018 : ∀ m < 12, ∀ d < 31,
    d + 1 ≤ gregorian_month_length 2018 (m + 1) →
    from_julian_nat (Date.to_julian_day_number_u32 ⟨2018, m + 1, d + 1⟩) =
      ⟨2018, m + 1, d + 1⟩ := by decide

set_option maxHeartbeats 1000000 in
theorem yr_2019 : ∀ m < 12, ∀ d < 31,
    d + 1 ≤ gregorian_month_length 2019 (m + 1) →
    from_julian_nat (Date.to_julian_day_number_u32 ⟨2019, m + 1, d + 1⟩) =
      ⟨2019, m + 1, d + 1⟩ := by decide

set_option maxHeartbeats 1000000 in
theorem yr_2020 : ∀ m < 12, ∀ d < 31,
    d + 1 ≤ gregorian_month_length 2020 (m + 1) →
    from_julian_nat (Date.to_julian_day_number_u32 ⟨2020, m + 1, d + 1⟩) =
      ⟨2020, m + 1, d + 1⟩ := by decide

set_option maxHeartbeats 1000000 in
theorem yr_2021 : ∀ m < 12, ∀ d < 31,
    d + 1 ≤ gregorian_month_length 2021 (m + 1) →
    from_julian_nat (Date.to_julian_day_number_u32 ⟨2021, m + 1, d + 1⟩) =
      ⟨2021, m + 1, d + 1⟩ := by decide

set_option maxHeartbeats 1000000 in
theorem yr_2022 : ∀ m < 12, ∀ d < 31,
    d + 1 ≤ gregorian_month_length 2022 (m + 1) →
    from_julian_nat (Date.to_julian_day_number_u32 ⟨2022, m + 1, d + 1⟩) =
      ⟨2022, m + 1, d + 1⟩ := by decide

set_option maxHeartbeats 1000000 in
theorem yr_2023 : ∀ m < 12, ∀ d < 31,
    d + 1 ≤ gregorian_month_length 2023 (m + 1) →
    from_julian_nat (Date.to_julian_day_number_u32 ⟨2023, m + 1, d + 1⟩) =
      ⟨2023, m + 1, d + 1⟩ := by decide

set_option maxHeartbeats 1000000 in
theorem yr_2024 : ∀ m < 12, ∀ d < 31,
    d + 1 ≤ gregorian_month_length 2024 (m + 1) →
    from_julian_nat (Date.to_julian_day_number_u32 ⟨2024, m + 1, d + 1⟩) =
      ⟨2024, m + 1, d + 1⟩ := by decide

set_option maxHeartbeats 1000000 in
theorem yr_2025 : ∀ m < 12, ∀ d < 31,
    d + 1 ≤ gregorian_month_length 2025 (m + 1) →
    from_julian_nat (Date.to_julian_day_number_u32 ⟨2025, m + 1, d + 1⟩) =
      ⟨2025, m + 1, d + 1⟩ := by decide

set_option maxHeartbeats 1000000 in
theorem yr_2026 : ∀ m < 12, ∀ d < 31,
    d + 1 ≤ gregorian_month_length 2026 (m + 1) →
    from_julian_nat (Date.to_julian_day_number_u32 ⟨2026, m + 1, d + 1⟩) =
      ⟨2026, m + 1, d + 1⟩ := by decide

set_option maxHeartbeats 1000000 in
theorem yr_2027 : ∀ m < 12, ∀ d < 31,
    d + 1 ≤ gregorian_month_length 2027 (m + 1) →
    from_julian_nat (Date.to_julian_day_number_u32 ⟨2027, m + 1, d + 1⟩) =
      ⟨2027, m + 1, d + 1⟩ := by decide

set_option maxHeartbeats 1000000 in
theorem yr_2028 : ∀ m < 12, ∀ d < 31,
    d + 1 ≤ gregorian_month_length 2028 (m + 1) →
    from_julian_nat (Date.to_julian_day_number_u32 ⟨2028, m + 1, d + 1⟩) =
      ⟨2028, m + 1, d + 1⟩ := by decide

set_option maxHeartbeats 1000000 in
theorem yr_2029 : ∀ m < 12, ∀ d < 31,
    d + 1 ≤ gregorian_month_length 2029 (m + 1) →
    from_julian_nat (Date.to_julian_day_number_u32 ⟨2029, m + 1, d + 1⟩) =
      ⟨2029, m + 1, d + 1⟩ := by decide

set_option maxHeartbeats 1000000 in
theorem yr_2030 : ∀ m < 12, ∀ d < 31,
    d + 1 ≤ gregorian_month_length 2030 (m + 1) →
    from_julian_nat (Date.to_julian_day_number_u32 ⟨2030, m + 1, d + 1⟩) =
      ⟨2030, m + 1, d + 1⟩ := by decide

set_option maxHeartbeats 1000000 in
theorem yr_2031 : ∀ m < 12, ∀ d < 31,
    d + 1 ≤ gregorian_month_length 2031 (m + 1) →
    from_julian_nat (Date.to_julian_day_number_u32 ⟨2031, m + 1, d + 1⟩) =
      ⟨2031, m + 1, d + 1⟩ := by decide

set_option maxHeartbeats 1000000 in
theorem yr_2032 : ∀ m < 12, ∀ d < 31,
    d + 1 ≤ gregorian_month_length 2032 (m + 1) →
    from_julian_nat (Date.to_julian_day_number_u32 ⟨2032, m + 1, d + 1⟩) =
      ⟨2032, m + 1, d + 1⟩ := by decide

set_option maxHeartbeats 1000000 in
theorem yr_2033 : ∀ m < 12, ∀ d < 31,
    d + 1 ≤ gregorian_month_length 2033 (m + 1) →
    from_julian_nat (Date.to_julian_day_number_u32 ⟨2033, m + 1, d + 1⟩) =
      ⟨2033, m + 1, d + 1⟩ := by decide

set_option maxHeartbeats 1000000 in
theorem yr_2034 : ∀ m < 12, ∀ d < 31,
    d + 1 ≤ gregorian_month_length 2034 (m + 1) →
    from_julian_nat (Date.to_julian_day_number_u32 ⟨2034, m + 1, d + 1⟩) =
      ⟨2034, m + 1, d + 1⟩ := by decide

set_option maxHeartbeats 1000000 in
theorem yr_2035 : ∀ m < 12, ∀ d < 31,
    d + 1 ≤ gregorian_month_length 2035 (m + 1) →
    from_julian_nat (Date.to_julian_day_number_u32 ⟨2035, m + 1, d + 1⟩) =
      ⟨2035, m + 1, d + 1⟩ := by decide

set_option maxHeartbeats 1000000 in
theorem yr_2036 : ∀ m < 12, ∀ d < 31,
    d + 1 ≤ gregorian_month_length 2036 (m + 1) →
    from_julian_nat (Date.to_julian_day_number_u32 ⟨2036, m + 1, d + 1⟩) =
      ⟨2036, m + 1, d + 1⟩ := by decide

set_option maxHeartbeats 1000000 in
theorem yr_2037 : ∀ m < 12, ∀ d < 31,
    d + 1 ≤ gregorian_month_length 2037 (m + 1) →
    from_julian_nat (Date.to_julian_day_number_u32 ⟨2037, m + 1, d + 1⟩) =
      ⟨2037, m + 1, d + 1⟩ := by decide

set_option maxHeartbeats 1000000 in
theorem yr_2038 : ∀ m < 12, ∀ d < 31,
    d + 1 ≤ gregorian_month_length 2038 (m + 1) →
    from_julian_nat (Date.to_julian_day_number_u32 ⟨2038, m + 1, d + 1⟩) =
      ⟨2038, m + 1, d + 1⟩ := by decide

set_option maxHeartbeats 1000000 in
theorem yr_2039 : ∀ m < 12, ∀ d < 31,
    d + 1 ≤ gregorian_month_length 2039 (m + 1) →
    from_julian_nat (Date.to_julian_day_number_u32 ⟨2039, m + 1, d + 1⟩) =
      ⟨2039, m + 1, d + 1⟩ := by decide

set_option maxHeartbeats 1000000 in
theorem yr_2040 : ∀ m < 12, ∀ d < 31,
    d + 1 ≤ gregorian_month_length 2040 (m + 1) →
    from_julian_nat (Date.to_julian_day_number_u32 ⟨2040, m + 1, d + 1⟩) =
      ⟨2040, m + 1, d + 1⟩ := by decide

set_option maxHeartbeats 1000000 in
theorem yr_2041 : ∀ m < 12, ∀ d < 31,
    d + 1 ≤ gregorian_month_length 2041 (m + 1) →
    from_julian_nat (Date.to_julian_day_number_u32 ⟨2041, m + 1, d + 1⟩) =
      ⟨2041, m + 1, d + 1⟩ := by decide

set_option maxHeartbeats 1000000 in
theorem yr_2042 : ∀ m < 12, ∀ d < 31,
    d + 1 ≤ gregorian_month_length 2042 (m + 1) →
    from_julian_nat (Date.to_julian_day_number_u32 ⟨2042, m + 1, d + 1⟩) =
      ⟨2042, m + 1, d + 1⟩ := by decide

set_option maxHeartbeats 1000000 in
theorem yr_2043 : ∀ m < 12, ∀ d < 31,
    d + 1 ≤ gregorian_month_length 2043 (m + 1) →
    from_julian_nat (Date.to_julian_day_number_u32 ⟨2043, m + 1, d + 1⟩) =
      ⟨2043, m + 1, d + 1⟩ := by decide

set_option maxHeartbeats 1000000 in
theorem yr_2044 : ∀ m < 12, ∀ d < 31,
    d + 1 ≤ gregorian_month_length 2044 (m + 1) →
    from_julian_nat (Date.to_julian_day_number_u32 ⟨2044, m + 1, d + 1⟩) =
      ⟨2044, m + 1, d + 1⟩ := by decide

set_option maxHeartbeats 1000000 in
theorem yr_2045 : ∀ m < 12, ∀ d < 31,
    d + 1 ≤ gregorian_month_length 2045 (m + 1) →
    from_julian_nat (Date.to_julian_day_number_u32 ⟨2045, m + 1, d + 1⟩) =
      ⟨2045, m + 1, d + 1⟩ := by decide

set_option maxHeartbeats 1000000 in
theorem yr_2046 : ∀ m < 12, ∀ d < 31,
    d + 1 ≤ gregorian_month_length 2046 (m + 1) →
    from_julian_nat (Date.to_julian_day_number_u32 ⟨2046, m + 1, d + 1⟩) =
      ⟨2046, m + 1, d + 1⟩ := by decide

set_option maxHeartbeats 1000000 in
theorem yr_2047 : ∀ m < 12, ∀ d < 31,
    d + 1 ≤ gregorian_month_length 2047 (m + 1) →
    from_julian_nat (Date.to_julian_day_number_u32 ⟨2047, m + 1, d + 1⟩) =
      ⟨2047, m + 1, d + 1⟩ := by decide

set_option maxHeartbeats 1000000 in
theorem yr_2048 : ∀ m < 12, ∀ d < 31,
    d + 1 ≤ gregorian_month_length 2048 (m + 1) →
    from_julian_nat (Date.to_julian_day_number_u32 ⟨2048, m + 1, d + 1⟩) =
      ⟨2048, m + 1, d + 1⟩ := by decide

set_option maxHeartbeats 1000000 in
theorem yr_2049 : ∀ m < 12, ∀ d < 31,
    d + 1 ≤ gregorian_month_length 2049 (m + 1) →
    from_julian_nat (Date.to_julian_day_number_u32 ⟨2049, m + 1, d + 1⟩) =
      ⟨2049, m + 1, d + 1⟩ := by decide

set_option maxHeartbeats 1000000 in
theorem yr_2050 : ∀ m < 12, ∀ d < 31,
    d + 1 ≤ gregorian_month_length 2050 (m + 1) →
    from_julian_nat (Date.to_julian_day_number_u32 ⟨2050, m + 1, d + 1⟩) =
      ⟨2050, m + 1, d + 1⟩ := by decide

set_option maxHeartbeats 1000000 in
theorem yr_2051 : ∀ m < 12, ∀ d < 31,
    d + 1 ≤ gregorian_month_length 2051 (m + 1) →
    from_julian_nat (Date.to_julian_day_number_u32 ⟨2051, m + 1, d + 1⟩) =
      ⟨2051, m + 1, d + 1⟩ := by decide

set_option maxHeartbeats 1000000 in
theorem yr_2052 : ∀ m < 12, ∀ d < 31,
    d + 1 ≤ gregorian_month_length 2052 (m + 1) →
    from_julian_nat (Date.to_julian_day_number_u32 ⟨2052, m + 1, d + 1⟩) =
      ⟨2052, m + 1, d + 1⟩ := by decide

set_option maxHeartbeats 1000000 in
theorem yr_2053 : ∀ m < 12, ∀ d < 31,
    d + 1 ≤ gregorian_month_length 2053 (m + 1) →
    from_julian_nat (Date.to_julian_day_number_u32 ⟨2053, m + 1, d + 1⟩) =
      ⟨2053, m + 1, d + 1⟩ := by decide

set_option maxHeartbeats 1000000 in
theorem yr_2054 : ∀ m < 12, ∀ d < 31,
    d + 1 ≤ gregorian_month_length 2054 (m + 1) →
    from_julian_nat (Date.to_julian_day_number_u32 ⟨2054, m + 1, d + 1⟩) =
      ⟨2054, m + 1, d + 1⟩ := by decide

set_option maxHeartbeats 1000000 in
theorem yr_2055 : ∀ m < 12, ∀ d < 31,
    d + 1 ≤ gregorian_month_length 2055 (m + 1) →
    from_julian_nat (Date.to_julian_day_number_u32 ⟨2055, m + 1, d + 1⟩) =
      ⟨2055, m + 1, d + 1⟩ := by decide

set_option maxHeartbeats 1000000 in
theorem yr_2056 : ∀ m < 12, ∀ d < 31,
    d + 1 ≤ gregorian_month_length 2056 (m + 1) →
    from_julian_nat (Date.to_julian_day_number_u32 ⟨2056, m + 1, d + 1⟩) =
      ⟨2056, m + 1, d + 1⟩ := by decide

set_option maxHeartbeats 1000000 in
theorem yr_2057 : ∀ m < 12, ∀ d < 31,
    d + 1 ≤ gregorian_month_length 2057 (m + 1) →
    from_julian_nat (Date.to_julian_day_number_u32 ⟨2057, m + 1, d + 1⟩) =
      ⟨2057, m + 1, d + 1⟩ := by decide

set_option maxHeartbeats 1000000 in
theorem yr_2058 : ∀ m < 12, ∀ d < 31,
    d + 1 ≤ gregorian_month_length 2058 (m + 1) →
    from_julian_nat (Date.to_julian_day_number_u32 ⟨2058, m + 1, d + 1⟩) =
      ⟨2058, m + 1, d + 1⟩ := by decide

set_option maxHeartbeats 1000000 in
theorem yr_2059 : ∀ m < 12, ∀ d < 31,
    d + 1 ≤ gregorian_month_length 2059 (m + 1) →
    from_julian_nat (Date.to_julian_day_number_u32 ⟨2059, m + 1, d + 1⟩) =
      ⟨2059, m + 1, d + 1⟩ := by decide

set_option maxHeartbeats 1000000 in
theorem yr_2060 : ∀ m < 12, ∀ d < 31,
    d + 1 ≤ gregorian_month_length 2060 (m + 1) →
    from_julian_nat (Date.to_julian_day_number_u32 ⟨2060, m + 1, d + 1⟩) =
      ⟨2060, m + 1, d + 1⟩ := by decide

set_option maxHeartbeats 1000000 in
theorem yr_2061 : ∀ m < 12, ∀ d < 31,
    d + 1 ≤ gregorian_month_length 2061 (m + 1) →
    from_julian_nat (Date.to_julian_day_number_u32 ⟨2061, m + 1, d + 1⟩) =
      ⟨2061, m + 1, d + 1⟩ := by decide

set_option maxHeartbeats 1000000 in
theorem yr_2062 : ∀ m < 12, ∀ d < 31,
    d + 1 ≤ gregorian_month_length 2062 (m + 1) →
    from_julian_nat (Date.to_julian_day_number_u32 ⟨2062, m + 1, d + 1⟩) =
      ⟨2062, m + 1, d + 1⟩ := by decide

set_option maxHeartbeats 1000000 in
theorem yr_2063 : ∀ m < 12, ∀ d < 31,
    d + 1 ≤ gregorian_month_length 2063 (m + 1) →
    from_julian_nat (Date.to_julian_day_number_u32 ⟨2063, m + 1, d + 1⟩) =
      ⟨2063, m + 1, d + 1⟩ := by decide

set_option maxHeartbeats 1000000 in
theorem yr_2064 : ∀ m < 12, ∀ d < 31,
    d + 1 ≤ gregorian_month_length 2064 (m + 1) →
    from_julian_nat (Date.to_julian_day_number_u32 ⟨2064, m + 1, d + 1⟩) =
      ⟨2064, m + 1, d + 1⟩ := by decide

set_option maxHeartbeats 1000000 in
theorem yr_2065 : ∀ m < 12, ∀ d < 31,
    d + 1 ≤ gregorian_month_length 2065 (m + 1) →
    from_julian_nat (Date.to_julian_day_number_u32 ⟨2065, m + 1, d + 1⟩) =
      ⟨2065, m + 1, d + 1⟩ := by decide

set_option maxHeartbeats 1000000 in
theorem yr_2066 : ∀ m < 12, ∀ d < 31,
    d + 1 ≤ gregorian_month_length 2066 (m + 1) →
    from_julian_nat (Date.to_julian_day_number_u32 ⟨2066, m + 1, d + 1⟩) =
      ⟨2066, m + 1, d + 1⟩ := by decide

set_option maxHeartbeats 1000000 in
theorem yr_2067 : ∀ m < 12, ∀ d < 31,
    d + 1 ≤ gregorian_month_length 2067 (m + 1) →
    from_julian_nat (Date.to_julian_day_number_u32 ⟨2067, m + 1, d + 1⟩) =
      ⟨2067, m + 1, d + 1⟩ := by decide

set_option maxHeartbeats 1000000 in
theorem yr_2068 : ∀ m < 12, ∀ d < 31,
    d + 1 ≤ gregorian_month_length 2068 (m + 1) →
    from_julian_nat (Date.to_julian_day_number_u32 ⟨2068, m + 1, d + 1⟩) =
      ⟨2068, m + 1, d + 1⟩ := by decide

set_option maxHeartbeats 1000000 in
theorem yr_2069 : ∀ m < 12, ∀ d < 31,
    d + 1 ≤ gregorian_month_length 2069 (m + 1) →
    from_julian_nat (Date.to_julian_day_number_u32 ⟨2069, m + 1, d + 1⟩) =
      ⟨2069, m + 1, d + 1⟩ := by decide

set_option maxHeartbeats 1000000 in
theorem yr_2070 : ∀ m < 12, ∀ d < 31,
    d + 1 ≤ gregorian_month_length 2070 (m + 1) →
    from_julian_nat (Date.to_julian_day_number_u32 ⟨2070, m + 1, d + 1⟩) =
      ⟨2070, m + 1, d + 1⟩ := by decide

set_option maxHeartbeats 1000000 in
theorem yr_2071 : ∀ m < 12, ∀ d < 31,
    d + 1 ≤ gregorian_month_length 2071 (m + 1) →
    from_julian_nat (Date.to_julian_day_number_u32 ⟨2071, m + 1, d + 1⟩) =
      ⟨2071, m + 1, d + 1⟩ := by decide

set_option maxHeartbeats 1000000 in
theorem yr_2072 : ∀ m < 12, ∀ d < 31,
    d + 1 ≤ gregorian_month_length 2072 (m + 1) →
    from_julian_nat (Date.to_julian_day_number_u32 ⟨2072, m + 1, d + 1⟩) =
      ⟨2072, m + 1, d + 1⟩ := by decide

set_option maxHeartbeats 1000000 in
theorem yr_2073 : ∀ m < 12, ∀ d < 31,
    d + 1 ≤ gregorian_month_length 2073 (m + 1) →
    from_julian_nat (Date.to_julian_day_number_u32 ⟨2073, m + 1, d + 1⟩) =
      ⟨2073, m + 1, d + 1⟩ := by decide

set_option maxHeartbeats 1000000 in
theorem yr_2074 : ∀ m < 12, ∀ d < 31,
    d + 1 ≤ gregorian_month_length 2074 (m + 1) →
    from_julian_nat (Date.to_julian_day_number_u32 ⟨2074, m + 1, d + 1⟩) =
      ⟨2074, m + 1, d + 1⟩ := by decide

set_option maxHeartbeats 1000000 in
theorem yr_2075 : ∀ m < 12, ∀ d < 31,
    d + 1 ≤ gregorian_month_length 2075 (m + 1) →
    from_julian_nat (Date.to_julian_day_number_u32 ⟨2075, m + 1, d + 1⟩) =
      ⟨2075, m + 1, d + 1⟩ := by decide

set_option maxHeartbeats 1000000 in
theorem yr_2076 : ∀ m < 12, ∀ d < 31,
    d + 1 ≤ gregorian_month_length 2076 (m + 1) →
    from_julian_nat (Date.to_julian_day_number_u32 ⟨2076, m + 1, d + 1⟩) =
      ⟨2076, m + 1, d + 1⟩ := by decide

set_option maxHeartbeats 1000000 in
theorem yr_2077 : ∀ m < 12, ∀ d < 31,
    d + 1 ≤ gregorian_month_length 2077 (m + 1) →
    from_julian_nat (Date.to_julian_day_number_u32 ⟨2077, m + 1, d + 1⟩) =
      ⟨2077, m + 1, d + 1⟩ := by decide

set_option maxHeartbeats 1000000 in
theorem yr_2078 : ∀ m < 12, ∀ d < 31,
    d + 1 ≤ gregorian_month_length 2078 (m + 1) →
    from_julian_nat (Date.to_julian_day_number_u32 ⟨2078, m + 1, d + 1⟩) =
      ⟨2078, m + 1, d + 1⟩ := by decide

set_option maxHeartbeats 1000000 in
theorem yr_2079 : ∀ m < 12, ∀ d < 31,
    d + 1 ≤ gregorian_month_length 2079 (m + 1) →
    from_julian_nat (Date.to_julian_day_number_u32 ⟨2079, m + 1, d + 1⟩) =
      ⟨2079, m + 1, d + 1⟩ := by decide

set_option maxHeartbeats 1000000 in
theorem yr_2080 : ∀ m < 12, ∀ d < 31,
    d + 1 ≤ gregorian_month_length 2080 (m + 1) →
    from_julian_nat (Date.to_julian_day_number_u32 ⟨2080, m + 1, d + 1⟩) =
      ⟨2080, m + 1, d + 1⟩ := by decide

set_option maxHeartbeats 1000000 in
theorem yr_2081 : ∀ m < 12, ∀ d < 31,
    d + 1 ≤ gregorian_month_length 2081 (m + 1) →
    from_julian_nat (Date.to_julian_day_number_u32 ⟨2081, m + 1, d + 1⟩) =
      ⟨2081, m + 1, d + 1⟩ := by decide

set_option maxHeartbeats 1000000 in
theorem yr_2082 : ∀ m < 12, ∀ d < 31,
    d + 1 ≤ gregorian_month_length 2082 (m + 1) →
    from_julian_nat (Date.to_julian_day_number_u32 ⟨2082, m + 1, d + 1⟩) =
      ⟨2082, m + 1, d + 1⟩ := by decide

set_option maxHeartbeats 1000000 in
theorem yr_2083 : ∀ m < 12, ∀ d < 31,
    d + 1 ≤ gregorian_month_length 2083 (m + 1) →
    from_julian_nat (Date.to_julian_day_number_u32 ⟨2083, m + 1, d + 1⟩) =
      ⟨2083, m + 1, d + 1⟩ := by decide

set_option maxHeartbeats 1000000 in
theorem yr_2084 : ∀ m < 12, ∀ d < 31,
    d + 1 ≤ gregorian_month_length 2084 (m + 1) →
    from_julian_nat (Date.to_julian_day_number_u32 ⟨2084, m + 1, d + 1⟩) =
      ⟨2084, m + 1, d + 1⟩ := by decide

set_option maxHeartbeats 1000000 in
theorem yr_2085 : ∀ m < 12, ∀ d < 31,
    d + 1 ≤ gregorian_month_length 2085 (m + 1) →
    from_julian_nat (Date.to_julian_day_number_u32 ⟨2085, m + 1, d + 1⟩) =
      ⟨2085, m + 1, d + 1⟩ := by decide

set_option maxHeartbeats 1000000 in
theorem yr_2086 : ∀ m < 12, ∀ d < 31,
    d + 1 ≤ gregorian_month_length 2086 (m + 1) →
    from_julian_nat (Date.to_julian_day_number_u32 ⟨2086, m + 1, d + 1⟩) =
      ⟨2086, m + 1, d + 1⟩ := by decide

set_option maxHeartbeats 1000000 in
theorem yr_2087 : ∀ m < 12, ∀ d < 31,
    d + 1 ≤ gregorian_month_length 2087 (m + 1) →
    from_julian_nat (Date.to_julian_day_number_u32 ⟨2087, m + 1, d + 1⟩) =
      ⟨2087, m + 1, d + 1⟩ := by decide

set_option maxHeartbeats 1000000 in
theorem yr_2088 : ∀ m < 12, ∀ d < 31,
    d + 1 ≤ gregorian_month_length 2088 (m + 1) →
    from_julian_nat (Date.to_julian_day_number_u32 ⟨2088, m + 1, d + 1⟩) =
      ⟨2088, m + 1, d + 1⟩ := by decide

set_option maxHeartbeats 1000000 in
theorem yr_2089 : ∀ m < 12, ∀ d < 31,
    d + 1 ≤ gregorian_month_length 2089 (m + 1) →
    from_julian_nat (Date.to_julian_day_number_u32 ⟨2089, m + 1, d + 1⟩) =
      ⟨2089, m + 1, d + 1⟩ := by decide

set_option maxHeartbeats 1000000 in
theorem yr_2090 : ∀ m < 12, ∀ d < 31,
    d + 1 ≤ gregorian_month_length 2090 (m + 1) →
    from_julian_nat (Date.to_julian_day_number_u32 ⟨2090, m + 1, d + 1⟩) =
      ⟨2090, m + 1, d + 1⟩ := by decide

set_option maxHeartbeats 1000000 in
theorem yr_2091 : ∀ m < 12, ∀ d < 31,
    d + 1 ≤ gregorian_month_length 2091 (m + 1) →
    from_julian_nat (Date.to_julian_day_number_u32 ⟨2091, m + 1, d + 1⟩) =
      ⟨2091, m + 1, d + 1⟩ := by decide

set_option maxHeartbeats 1000000 in
theorem yr_2092 : ∀ m < 12, ∀ d < 31,
    d + 1 ≤ gregorian_month_length 2092 (m + 1) →
    from_julian_nat (Date.to_julian_day_number_u32 ⟨2092, m + 1, d + 1⟩) =
      ⟨2092, m + 1, d + 1⟩ := by decide

set_option maxHeartbeats 1000000 in
theorem yr_2093 : ∀ m < 12, ∀ d < 31,
    d + 1 ≤ gregorian_month_length 2093 (m + 1) →
    from_julian_nat (Date.to_julian_day_number_u32 ⟨2093, m + 1, d + 1⟩) =
      ⟨2093, m + 1, d + 1⟩ := by decide

set_option maxHeartbeats 1000000 in
theorem yr_2094 : ∀ m < 12, ∀ d < 31,
    d + 1 ≤ gregorian_month_length 2094 (m + 1) →
    from_julian_nat (Date.to_julian_day_number_u32 ⟨2094, m + 1, d + 1⟩) =
      ⟨2094, m + 1, d + 1⟩ := by decide

set_option maxHeartbeats 1000000 in
theorem yr_2095 : ∀ m < 12, ∀ d < 31,
    d + 1 ≤ gregorian_month_length 2095 (m + 1) →
    from_julian_nat (Date.to_julian_day_number_u32 ⟨2095, m + 1, d + 1⟩) =
      ⟨2095, m + 1, d + 1⟩ := by decide

set_option maxHeartbeats 1000000 in
theorem yr_2096 : ∀ m < 12, ∀ d < 31,
    d + 1 ≤ gregorian_month_length 2096 (m + 1) →
    from_julian_nat (Date.to_julian_day_number_u32 ⟨2096, m + 1, d + 1⟩) =
      ⟨2096, m + 1, d + 1⟩ := by decide

set_option maxHeartbeats 1000000 in
theorem yr_2097 : ∀ m < 12, ∀ d < 31,
    d + 1 ≤ gregorian_month_length 2097 (m + 1) →
    from_julian_nat (Date.to_julian_day_number_u32 ⟨2097, m + 1, d + 1⟩) =
      ⟨2097, m + 1, d + 1⟩ := by decide

set_option maxHeartbeats 1000000 in
theorem yr_2098 : ∀ m < 12, ∀ d < 31,
    d + 1 ≤ gregorian_month_length 2098 (m + 1) →
    from_julian_nat (Date.to_julian_day_number_u32 ⟨2098, m + 1, d + 1⟩) =
      ⟨2098, m + 1, d + 1⟩ := by decide

set_option maxHeartbeats 1000000 in
theorem yr_2099 : ∀ m < 12, ∀ d < 31,
    d + 1 ≤ gregorian_month_length 2099 (m + 1) →
    from_julian_nat (Date.to_julian_day_number_u32 ⟨2099, m + 1, d + 1⟩) =
      ⟨2099, m + 1, d + 1⟩ := by decide

set_option maxHeartbeats 1000000 in
theorem yr_2100 : ∀ m < 12, ∀ d < 31,
    d + 1 ≤ gregorian_month_length 2100 (m + 1) →
    from_julian_nat (Date.to_julian_day_number_u32 ⟨2100, m + 1, d + 1⟩) =
      ⟨2100, m + 1, d + 1⟩ := by decide

set_option maxHeartbeats 1000000 in
theorem yr_2101 : ∀ m < 12, ∀ d < 31,
    d + 1 ≤ gregorian_month_length 2101 (m + 1) →
    from_julian_nat (Date.to_julian_day_number_u32 ⟨2101, m + 1, d + 1⟩) =
      ⟨2101, m + 1, d + 1⟩ := by decide

set_option maxHeartbeats 1000000 in
theorem yr_2102 : ∀ m < 12, ∀ d < 31,
    d + 1 ≤ gregorian_month_length 2102 (m + 1) →
    from_julian_nat (Date.to_julian_day_number_u32 ⟨2102, m + 1, d + 1⟩) =
      ⟨2102, m + 1, d + 1⟩ := by decide

set_option maxHeartbeats 1000000 in
theorem yr_2103 : ∀ m < 12, ∀ d < 31,
    d + 1 ≤ gregorian_month_length 2103 (m + 1) →
    from_julian_nat (Date.to_julian_day_number_u32 ⟨2103, m + 1, d + 1⟩) =
      ⟨2103, m + 1, d + 1⟩ := by decide

set_option maxHeartbeats 1000000 in
theorem yr_2104 : ∀ m < 12, ∀ d < 31,
    d + 1 ≤ gregorian_month_length 2104 (m + 1) →
    from_julian_nat (Date.to_julian_day_number_u32 ⟨2104, m + 1, d + 1⟩) =
      ⟨2104, m + 1, d + 1⟩ := by decide

set_option maxHeartbeats 1000000 in
theorem yr_2105 : ∀ m < 12, ∀ d < 31,
    d + 1 ≤ gregorian_month_length 2105 (m + 1) →
    from_julian_nat (Date.to_julian_day_number_u32 ⟨2105, m + 1, d + 1⟩) =
      ⟨2105, m + 1, d + 1⟩ := by decide

set_option maxHeartbeats 1000000 in
theorem yr_2106 : ∀ m < 12, ∀ d < 31,
    d + 1 ≤ gregorian_month_length 2106 (m + 1) →
    from_julian_nat (Date.to_julian_day_number_u32 ⟨2106, m + 1, d + 1⟩) =
      ⟨2106, m + 1, d + 1⟩ := by decide

set_option maxHeartbeats 1000000 in
theorem yr_2107 : ∀ m < 12, ∀ d < 31,
    d + 1 ≤ gregorian_month_length 2107 (m + 1) →
    from_julian_nat (Date.to_julian_day_number_u32 ⟨2107, m + 1, d + 1⟩) =
      ⟨2107, m + 1, d + 1⟩ := by decide

set_option maxHeartbeats 1000000 in
theorem yr_2108 : ∀ m < 12, ∀ d < 31,
    d + 1 ≤ gregorian_month_length 2108 (m + 1) →
    from_julian_nat (Date.to_julian_day_number_u32 ⟨2108, m + 1, d + 1⟩) =
      ⟨2108, m + 1, d + 1⟩ := by decide

set_option maxHeartbeats 1000000 in
theorem yr_2109 : ∀ m < 12, ∀ d < 31,
    d + 1 ≤ gregorian_month_length 2109 (m + 1) →
    from_julian_nat (Date.to_julian_day_number_u32 ⟨2109, m + 1, d + 1⟩) =
      ⟨2109, m + 1, d + 1⟩ := by decide

set_option maxHeartbeats 1000000 in
theorem yr_2110 : ∀ m < 12, ∀ d < 31,
    d + 1 ≤ gregorian_month_length 2110 (m + 1) →
    from_julian_nat (Date.to_julian_day_number_u32 ⟨2110, m + 1, d + 1⟩) =
      ⟨2110, m + 1, d + 1⟩ := by decide

set_option maxHeartbeats 1000000 in
theorem yr_2111 : ∀ m < 12, ∀ d < 31,
    d + 1 ≤ gregorian_month_length 2111 (m + 1) →
    from_julian_nat (Date.to_julian_day_number_u32 ⟨2111, m + 1, d + 1⟩) =
      ⟨2111, m + 1, d + 1⟩ := by decide

set_option maxHeartbeats 1000000 in
theorem yr_2112 : ∀ m < 12, ∀ d < 31,
    d + 1 ≤ gregorian_month_length 2112 (m + 1) →
    from_julian_nat (Date.to_julian_day_number_u32 ⟨2112, m + 1, d + 1⟩) =
      ⟨2112, m + 1, d + 1⟩ := by decide

set_option maxHeartbeats 1000000 in
theorem yr_2113 : ∀ m < 12, ∀ d < 31,
    d + 1 ≤ gregorian_month_length 2113 (m + 1) →
    from_julian_nat (Date.to_julian_day_number_u32 ⟨2113, m + 1, d + 1⟩) =
      ⟨2113, m + 1, d + 1⟩ := by decide

set_option maxHeartbeats 1000000 in
theorem yr_2114 : ∀ m < 12, ∀ d < 31,
    d + 1 ≤ gregorian_month_length 2114 (m + 1) →
    from_julian_nat (Date.to_julian_day_number_u32 ⟨2114, m + 1, d + 1⟩) =
      ⟨2114, m + 1, d + 1⟩ := by decide

set_option maxHeartbeats 1000000 in
theorem yr_2115 : ∀ m < 12, ∀ d < 31,
    d + 1 ≤ gregorian_month_length 2115 (m + 1) →
    from_julian_nat (Date.to_julian_day_number_u32 ⟨2115, m + 1, d + 1⟩) =
      ⟨2115, m + 1, d + 1⟩ := by decide

set_option maxHeartbeats 1000000 in
theorem yr_2116 : ∀ m < 12, ∀ d < 31,
    d + 1 ≤ gregorian_month_length 2116 (m + 1) →
    from_julian_nat (Date.to_julian_day_number_u32 ⟨2116, m + 1, d + 1⟩) =
      ⟨2116, m + 1, d + 1⟩ := by decide

set_option maxHeartbeats 1000000 in
theorem yr_2117 : ∀ m < 12, ∀ d < 31,
    d + 1 ≤ gregorian_month_length 2117 (m + 1) →
    from_julian_nat (Date.to_julian_day_number_u32 ⟨2117, m + 1, d + 1⟩) =
      ⟨2117, m + 1, d + 1⟩ := by decide

set_option maxHeartbeats 1000000 in
theorem yr_2118 : ∀ m < 12, ∀ d < 31,
    d + 1 ≤ gregorian_month_length 2118 (m + 1) →
    from_julian_nat (Date.to_julian_day_number_u32 ⟨2118, m + 1, d + 1⟩) =
      ⟨2118, m + 1, d + 1⟩ := by decide

set_option maxHeartbeats 1000000 in
theorem yr_2119 : ∀ m < 12, ∀ d < 31,
    d + 1 ≤ gregorian_month_length 2119 (m + 1) →
    from_julian_nat (Date.to_julian_day_number_u32 ⟨2119, m + 1, d + 1⟩) =
      ⟨2119, m + 1, d + 1⟩ := by decide

set_option maxHeartbeats 1000000 in
theorem yr_2120 : ∀ m < 12, ∀ d < 31,
    d + 1 ≤ gregorian_month_length 2120 (m + 1) →
    from_julian_nat (Date.to_julian_day_number_u32 ⟨2120, m + 1, d + 1⟩) =
      ⟨2120, m + 1, d + 1⟩ := by decide

set_option maxHeartbeats 1000000 in
theorem yr_2121 : ∀ m < 12, ∀ d < 31,
    d + 1 ≤ gregorian_month_length 2121 (m + 1) →
    from_julian_nat (Date.to_julian_day_number_u32 ⟨2121, m + 1, d + 1⟩) =
      ⟨2121, m + 1, d + 1⟩ := by decide

set_option maxHeartbeats 1000000 in
theorem yr_2122 : ∀ m < 12, ∀ d < 31,
    d + 1 ≤ gregorian_month_length 2122 (m + 1) →
    from_julian_nat (Date.to_julian_day_number_u32 ⟨2122, m + 1, d + 1⟩) =
      ⟨2122, m + 1, d + 1⟩ := by decide

set_option maxHeartbeats 1000000 in
theorem yr_2123 : ∀ m < 12, ∀ d < 31,
    d + 1 ≤ gregorian_month_length 2123 (m + 1) →
    from_julian_nat (Date.to_julian_day_number_u32 ⟨2123, m + 1, d + 1⟩) =
      ⟨2123, m + 1, d + 1⟩ := by decide

set_option maxHeartbeats 1000000 in
theorem yr_2124 : ∀ m < 12, ∀ d < 31,
    d + 1 ≤ gregorian_month_length 2124 (m + 1) →
    from_julian_nat (Date.to_julian_day_number_u32 ⟨2124, m + 1, d + 1⟩) =
      ⟨2124, m + 1, d + 1⟩ := by decide

set_option maxHeartbeats 1000000 in
theorem yr_2125 : ∀ m < 12, ∀ d < 31,
    d + 1 ≤ gregorian_month_length 2125 (m + 1) →
    from_julian_nat (Date.to_julian_day_number_u32 ⟨2125, m + 1, d + 1⟩) =
      ⟨2125, m + 1, d + 1⟩ := by decide

set_option maxHeartbeats 1000000 in
theorem yr_2126 : ∀ m < 12, ∀ d < 31,
    d + 1 ≤ gregorian_month_length 2126 (m + 1) →
    from_julian_nat (Date.to_julian_day_number_u32 ⟨2126, m + 1, d + 1⟩) =
      ⟨2126, m + 1, d + 1⟩ := by decide

set_option maxHeartbeats 1000000 in
theorem yr_2127 : ∀ m < 12, ∀ d < 31,
    d + 1 ≤ gregorian_month_length 2127 (m + 1) →
    from_julian_nat (Date.to_julian_day_number_u32 ⟨2127, m + 1, d + 1⟩) =
      ⟨2127, m + 1, d + 1⟩ := by decide

set_option maxHeartbeats 1000000 in
theorem yr_2128 : ∀ m < 12, ∀ d < 31,
    d + 1 ≤ gregorian_month_length 2128 (m + 1) →
    from_julian_nat (Date.to_julian_day_number_u32 ⟨2128, m + 1, d + 1⟩) =
      ⟨2128, m + 1, d + 1⟩ := by decide

set_option maxHeartbeats 1000000 in
theorem yr_2129 : ∀ m < 12, ∀ d < 31,
    d + 1 ≤ gregorian_month_length 2129 (m + 1) →
    from_julian_nat (Date.to_julian_day_number_u32 ⟨2129, m + 1, d + 1⟩) =
      ⟨2129, m + 1, d + 1⟩ := by decide

set_option maxHeartbeats 1000000 in
theorem yr_2130 : ∀ m < 12, ∀ d < 31,
    d + 1 ≤ gregorian_month_length 2130 (m + 1) →
    from_julian_nat (Date.to_julian_day_number_u32 ⟨2130, m + 1, d + 1⟩) =
      ⟨2130, m + 1, d + 1⟩ := by decide

set_option maxHeartbeats 1000000 in
theorem yr_2131 : ∀ m < 12, ∀ d < 31,
    d + 1 ≤ gregorian_month_length 2131 (m + 1) →
    from_julian_nat (Date.to_julian_day_number_u32 ⟨2131, m + 1, d + 1⟩) =
      ⟨2131, m + 1, d + 1⟩ := by decide

set_option maxHeartbeats 1000000 in
theorem yr_2132 : ∀ m < 12, ∀ d < 31,
    d + 1 ≤ gregorian_month_length 2132 (m + 1) →
    from_julian_nat (Date.to_julian_day_number_u32 ⟨2132, m + 1, d + 1⟩) =
      ⟨2132, m + 1, d + 1⟩ := by decide

set_option maxHeartbeats 1000000 in
theorem yr_2133 : ∀ m < 12, ∀ d < 31,
    d + 1 ≤ gregorian_month_length 2133 (m + 1) →
    from_julian_nat (Date.to_julian_day_number_u32 ⟨2133, m + 1, d + 1⟩) =
      ⟨2133, m + 1, d + 1⟩ := by decide

set_option maxHeartbeats 1000000 in
theorem yr_2134 : ∀ m < 12, ∀ d < 31,
    d + 1 ≤ gregorian_month_length 2134 (m + 1) →
    from_julian_nat (Date.to_julian_day_number_u32 ⟨2134, m + 1, d + 1⟩) =
      ⟨2134, m + 1, d + 1⟩ := by decide

set_option maxHeartbeats 1000000 in
theorem yr_2135 : ∀ m < 12, ∀ d < 31,
    d + 1 ≤ gregorian_month_length 2135 (m + 1) →
    from_julian_nat (Date.to_julian_day_number_u32 ⟨2135, m + 1, d + 1⟩) =
      ⟨2135, m + 1, d + 1⟩ := by decide

set_option maxHeartbeats 1000000 in
theorem yr_2136 : ∀ m < 12, ∀ d < 31,
    d + 1 ≤ gregorian_month_length 2136 (m + 1) →
    from_julian_nat (Date.to_julian_day_number_u32 ⟨2136, m + 1, d + 1⟩) =
      ⟨2136, m + 1, d + 1⟩ := by decide

set_option maxHeartbeats 1000000 in
theorem yr_2137 : ∀ m < 12, ∀ d < 31,
    d + 1 ≤ gregorian_month_length 2137 (m + 1) →
    from_julian_nat (Date.to_julian_day_number_u32 ⟨2137, m + 1, d + 1⟩) =
      ⟨2137, m + 1, d + 1⟩ := by decide

set_option maxHeartbeats 1000000 in
theorem yr_2138 : ∀ m < 12, ∀ d < 31,
    d + 1 ≤ gregorian_month_length 2138 (m + 1) →
    from_julian_nat (Date.to_julian_day_number_u32 ⟨2138, m + 1, d + 1⟩) =
      ⟨2138, m + 1, d + 1⟩ := by decide

set_option maxHeartbeats 1000000 in
theorem yr_2139 : ∀ m < 12, ∀ d < 31,
    d + 1 ≤ gregorian_month_length 2139 (m + 1) →
    from_julian_nat (Date.to_julian_day_number_u32 ⟨2139, m + 1, d + 1⟩) =
      ⟨2139, m + 1, d + 1⟩ := by decide

set_option maxHeartbeats 1000000 in
theorem yr_2140 : ∀ m < 12, ∀ d < 31,
    d + 1 ≤ gregorian_month_length 2140 (m + 1) →
    from_julian_nat (Date.to_julian_day_number_u32 ⟨2140, m + 1, d + 1⟩) =
      ⟨2140, m + 1, d + 1⟩ := by decide

set_option maxHeartbeats 1000000 in
theorem yr_2141 : ∀ m < 12, ∀ d < 31,
    d + 1 ≤ gregorian_month_length 2141 (m + 1) →
    from_julian_nat (Date.to_julian_day_number_u32 ⟨2141, m + 1, d + 1⟩) =
      ⟨2141, m + 1, d + 1⟩ := by decide

set_option maxHeartbeats 1000000 in
theorem yr_2142 : ∀ m < 12, ∀ d < 31,
    d + 1 ≤ gregorian_month_length 2142 (m + 1) →
    from_julian_nat (Date.to_julian_day_number_u32 ⟨2142, m + 1, d + 1⟩) =
      ⟨2142, m + 1, d + 1⟩ := by decide

set_option maxHeartbeats 1000000 in
theorem yr_2143 : ∀ m < 12, ∀ d < 31,
    d + 1 ≤ gregorian_month_length 2143 (m + 1) →
    from_julian_nat (Date.to_julian_day_number_u32 ⟨2143, m + 1, d + 1⟩) =
      ⟨2143, m + 1, d + 1⟩ := by decide

set_option maxHeartbeats 1000000 in
theorem yr_2144 : ∀ m < 12, ∀ d < 31,
    d + 1 ≤ gregorian_month_length 2144 (m + 1) →
    from_julian_nat (Date.to_julian_day_number_u32 ⟨2144, m + 1, d + 1⟩) =
      ⟨2144, m + 1, d + 1⟩ := by decide

set_option maxHeartbeats 1000000 in
theorem yr_2145 : ∀ m < 12, ∀ d < 31,
    d + 1 ≤ gregorian_month_length 2145 (m + 1) →
    from_julian_nat (Date.to_julian_day_number_u32 ⟨2145, m + 1, d + 1⟩) =
      ⟨2145, m + 1, d + 1⟩ := by decide

set_option maxHeartbeats 1000000 in
theorem yr_2146 : ∀ m < 12, ∀ d < 31,
    d + 1 ≤ gregorian_month_length 2146 (m + 1) →
    from_julian_nat (Date.to_julian_day_number_u32 ⟨2146, m + 1, d + 1⟩) =
      ⟨2146, m + 1, d + 1⟩ := by decide

set_option maxHeartbeats 1000000 in
theorem yr_2147 : ∀ m < 12, ∀ d < 31,
    d + 1 ≤ gregorian_month_length 2147 (m + 1) →
    from_julian_nat (Date.to_julian_day_number_u32 ⟨2147, m + 1, d + 1⟩) =
      ⟨2147, m + 1, d + 1⟩ := by decide

set_option maxHeartbeats 1000000 in
theorem yr_2148 : ∀ m < 12, ∀ d < 31,
    d + 1 ≤ gregorian_month_length 2148 (m + 1) →
    from_julian_nat (Date.to_julian_day_number_u32 ⟨2148, m + 1, d + 1⟩) =
      ⟨2148, m + 1, d + 1⟩ := by decide

set_option maxHeartbeats 1000000 in
theorem yr_2149 : ∀ m < 12, ∀ d < 31,
    d + 1 ≤ gregorian_month_length 2149 (m + 1) →
    from_julian_nat (Date.to_julian_day_number_u32 ⟨2149, m + 1, d + 1⟩) =
      ⟨2149, m + 1, d + 1⟩ := by decide

set_option maxHeartbeats 1000000 in
theorem yr_2150 : ∀ m < 12, ∀ d < 31,
    d + 1 ≤ gregorian_month_length 2150 (m + 1) →
    from_julian_nat (Date.to_julian_day_number_u32 ⟨2150, m + 1, d + 1⟩) =
      ⟨2150, m + 1, d + 1⟩ := by decide

set_option maxHeartbeats 1000000 in
theorem yr_2151 : ∀ m < 12, ∀ d < 31,
    d + 1 ≤ gregorian_month_length 2151 (m + 1) →
    from_julian_nat (Date.to_julian_day_number_u32 ⟨2151, m + 1, d + 1⟩) =
      ⟨2151, m + 1, d + 1⟩ := by decide

set_option maxHeartbeats 1000000 in
theorem yr_2152 : ∀ m < 12, ∀ d < 31,
    d + 1 ≤ gregorian_month_length 2152 (m + 1) →
    from_julian_nat (Date.to_julian_day_number_u32 ⟨2152, m + 1, d + 1⟩) =
      ⟨2152, m + 1, d + 1⟩ := by decide

set_option maxHeartbeats 1000000 in
theorem yr_2153 : ∀ m < 12, ∀ d < 31,
    d + 1 ≤ gregorian_month_length 2153 (m + 1) →
    from_julian_nat (Date.to_julian_day_number_u32 ⟨2153, m + 1, d + 1⟩) =
      ⟨2153, m + 1, d + 1⟩ := by decide

set_option maxHeartbeats 1000000 in
theorem yr_2154 : ∀ m < 12, ∀ d < 31,
    d + 1 ≤ gregorian_month_length 2154 (m + 1) →
    from_julian_nat (Date.to_julian_day_number_u32 ⟨2154, m + 1, d + 1⟩) =
      ⟨2154, m + 1, d + 1⟩ := by decide

set_option maxHeartbeats 1000000 in
theorem yr_2155 : ∀ m < 12, ∀ d < 31,
    d + 1 ≤ gregorian_month_length 2155 (m + 1) →
    from_julian_nat (Date.to_julian_day_number_u32 ⟨2155, m + 1, d + 1⟩) =
      ⟨2155, m + 1, d + 1⟩ := by decide

/-- C4 counterexample: the claim quantifies over every day 1-31 of every
month, but the conversion pair is only inverse on actual calendar dates:
for February 30, 2019 the round trip returns March 2, 2019. -/
theorem C4_counterexample :
    Date.julian_day_number_to_gregorian_date (Date.to_julian_day_number ⟨2019, 2, 30⟩) =
      ⟨2019, 3, 2⟩ ∧ (⟨2019, 3, 2⟩ : Date) ≠ ⟨2019, 2, 30⟩ := by decide

set_option maxHeartbeats 4000000 in
/-- C4 amended: the Julian day number conversion is an exact inverse pair on
every actual calendar date in range (month 1-12, year 1900-2155, day from 1
to the Gregorian length of that month), and the two concrete values of the
claim hold. -/
theorem C4_theorem :
    (∀ y m d : Nat, 1900 ≤ y → y ≤ 2155 → 1 ≤ m → m ≤ 12 → 1 ≤ d →
      d ≤ gregorian_month_length y m →
      Date.julian_day_number_to_gregorian_date (Date.to_julian_day_number ⟨y, m, d⟩) =
        ⟨y, m, d⟩) ∧
    Date.julian_day_number_to_gregorian_date 2458685 = ⟨2019, 7, 20⟩ ∧
    Date.to_julian_day_number ⟨2019, 7, 20⟩ = 2458685 := by
  refine ⟨?_, by decide, by decide⟩
  intro y m d hy1 hy2 hm1 hm2 hd1 hd2
  have hd31 : d ≤ 31 := le_trans hd2 (gregorian_month_length_le y m)
  have hb := to_julian_u32_bounds y m d hy1 hy2 hm1 hm2 hd1 hd31
  have hcast : Date.to_julian_day_number ⟨y, m, d⟩ =
      ((Date.to_julian_day_number_u32 ⟨y, m, d⟩ : Nat) : Int) := by
    unfold Date.to_julian_day_number i32_of_u32
    rw [if_pos (by omega)]
  rw [hcast, julian_to_gregorian_eq_nat _ hb.1 hb.2]
  obtain ⟨km, rfl⟩ : ∃ k, m = k + 1 := ⟨m - 1, by omega⟩
  obtain ⟨kd, rfl⟩ : ∃ k, d = k + 1 := ⟨d - 1, by omega⟩
  have hkm : km < 12 := by omega
  have hkd : kd < 31 := by omega
  interval_cases y
  · exact yr_1900 km hkm kd hkd hd2
  · exact yr_1901 km hkm kd hkd hd2
  · exact yr_1902 km hkm kd hkd hd2
  · exact yr_1903 km hkm kd hkd hd2
  · exact yr_1904 km hkm kd hkd hd2
  · exact yr_1905 km hkm kd hkd hd2
  · exact yr_1906 km hkm kd hkd hd2
  · exact yr_1907 km hkm kd hkd hd2
  · exact yr_1908 km hkm kd hkd hd2
  · exact yr_1909 km hkm kd hkd hd2
  · exact yr_1910 km hkm kd hkd hd2
  · exact yr_1911 km hkm kd hkd hd2
  · exact yr_1912 km hkm kd hkd hd2
  · exact yr_1913 km hkm kd hkd hd2
  · exact yr_1914 km hkm kd hkd hd2
  · exact yr_1915 km hkm kd hkd hd2
  · exact yr_1916 km hkm kd hkd hd2
  · exact yr_1917 km hkm kd hkd hd2
  · exact yr_1918 km hkm kd hkd hd2
  · exact yr_1919 km hkm kd hkd hd2
  · exact yr_1920 km hkm kd hkd hd2
  · exact yr_1921 km hkm kd hkd hd2
  · exact yr_1922 km hkm kd hkd hd2
  · exact yr_1923 km hkm kd hkd hd2
  · exact yr_1924 km hkm kd hkd hd2
  · exact yr_1925 km hkm kd hkd hd2
  · exact yr_1926 km hkm kd hkd hd2
  · exact yr_1927 km hkm kd hkd hd2
  · exact yr_1928 km hkm kd hkd hd2
  · exact yr_1929 km hkm kd hkd hd2
  · exact yr_1930 km hkm kd hkd hd2
  · exact yr_1931 km hkm kd hkd hd2
  · exact yr_1932 km hkm kd hkd hd2
  · exact yr_1933 km hkm kd hkd hd2
  · exact yr_1934 km hkm kd hkd hd2
  · exact yr_1935 km hkm kd hkd hd2
  · exact yr_1936 km hkm kd hkd hd2
  · exact yr_1937 km hkm kd hkd hd2
  · exact yr_1938 km hkm kd hkd hd2
  · exact yr_1939 km hkm kd hkd hd2
  · exact yr_1940 km hkm kd hkd hd2
  · exact yr_1941 km hkm kd hkd hd2
  · exact yr_1942 km hkm kd hkd hd2
  · exact yr_1943 km hkm kd hkd hd2
  · exact yr_1944 km hkm kd hkd hd2
  · exact yr_1945 km hkm kd hkd hd2
  · exact yr_1946 km hkm kd hkd hd2
  · exact yr_1947 km hkm kd hkd hd2
  · exact yr_1948 km hkm kd hkd hd2
  · exact yr_1949 km hkm kd hkd hd2
  · exact yr_1950 km hkm kd hkd hd2
  · exact yr_1951 km hkm kd hkd hd2
  · exact yr_1952 km hkm kd hkd hd2
  · exact yr_1953 km hkm kd hkd hd2
  · exact yr_1954 km hkm kd hkd hd2
  · exact yr_1955 km hkm kd hkd hd2
  · exact yr_1956 km hkm kd hkd hd2
  · exact yr_1957 km hkm kd hkd hd2
  · exact yr_1958 km hkm kd hkd hd2
  · exact yr_1959 km hkm kd hkd hd2
  · exact yr_1960 km hkm kd hkd hd2
  · exact yr_1961 km hkm kd hkd hd2
  · exact yr_1962 km hkm kd hkd hd2
  · exact yr_1963 km hkm kd hkd hd2
  · exact yr_1964 km hkm kd hkd hd2
  · exact yr_1965 km hkm kd hkd hd2
  · exact yr_1966 km hkm kd hkd hd2
  · exact yr_1967 km hkm kd hkd hd2
  · exact yr_1968 km hkm kd hkd hd2
  · exact yr_1969 km hkm kd hkd hd2
  · exact yr_1970 km hkm kd hkd hd2
  · exact yr_1971 km hkm kd hkd hd2
  · exact yr_1972 km hkm kd hkd hd2
  · exact yr_1973 km hkm kd hkd hd2
  · exact yr_1974 km hkm kd hkd hd2
  · exact yr_1975 km hkm kd hkd hd2
  · exact yr_1976 km hkm kd hkd hd2
  · exact yr_1977 km hkm kd hkd hd2
  · exact yr_1978 km hkm kd hkd hd2
  · exact yr_1979 km hkm kd hkd hd2
  · exact yr_1980 km hkm kd hkd hd2
  · exact yr_1981 km hkm kd hkd hd2
  · exact yr_1982 km hkm kd hkd hd2
  · exact yr_1983 km hkm kd hkd hd2
  · exact yr_1984 km hkm kd hkd hd2
  · exact yr_1985 km hkm kd hkd hd2
  · exact yr_1986 km hkm kd hkd hd2
  · exact yr_1987 km hkm kd hkd hd2
  · exact yr_1988 km hkm kd hkd hd2
  · exact yr_1989 km hkm kd hkd hd2
  · exact yr_1990 km hkm kd hkd hd2
  · exact yr_1991 km hkm kd hkd hd2
  · exact yr_1992 km hkm kd hkd hd2
  · exact yr_1993 km hkm kd hkd hd2
  · exact yr_1994 km hkm kd hkd hd2
  · exact yr_1995 km hkm kd hkd hd2
  · exact yr_1996 km hkm kd hkd hd2
  · exact yr_1997 km hkm kd hkd hd2
  · exact yr_1998 km hkm kd hkd hd2
  · exact yr_1999 km hkm kd hkd hd2
  · exact yr_2000 km hkm kd hkd hd2
  · exact yr_2001 km hkm kd hkd hd2
  · exact yr_2002 km hkm kd hkd hd2
  · exact yr_2003 km hkm kd hkd hd2
  · exact yr_2004 km hkm kd hkd hd2
  · exact yr_2005 km hkm kd hkd hd2
  · exact yr_2006 km hkm kd hkd hd2
  · exact yr_2007 km hkm kd hkd hd2
  · exact yr_2008 km hkm kd hkd hd2
  · exact yr_2009 km hkm kd hkd hd2
  · exact yr_2010 km hkm kd hkd hd2
  · exact yr_2011 km hkm kd hkd hd2
  · exact yr_2012 km hkm kd hkd hd2
  · exact yr_2013 km hkm kd hkd hd2
  · exact yr_2014 km hkm kd hkd hd2
  · exact yr_2015 km hkm kd hkd hd2
  · exact yr_2016 km hkm kd hkd hd2
  · exact yr_2017 km hkm kd hkd hd2
  · exact yr_2018 km hkm kd hkd hd2
  · exact yr_2019 km hkm kd hkd hd2
  · exact yr_2020 km hkm kd hkd hd2
  · exact yr_2021 km hkm kd hkd hd2
  · exact yr_2022 km hkm kd hkd hd2
  · exact yr_2023 km hkm kd hkd hd2
  · exact yr_2024 km hkm kd hkd hd2
  · exact yr_2025 km hkm kd hkd hd2
  · exact yr_2026 km hkm kd hkd hd2
  · exact yr_2027 km hkm kd hkd hd2
  · exact yr_2028 km hkm kd hkd hd2
  · exact yr_2029 km hkm kd hkd hd2
  · exact yr_2030 km hkm kd hkd hd2
  · exact yr_2031 km hkm kd hkd hd2
  · exact yr_2032 km hkm kd hkd hd2
  · exact yr_2033 km hkm kd hkd hd2
  · exact yr_2034 km hkm kd hkd hd2
  · exact yr_2035 km hkm kd hkd hd2
  · exact yr_2036 km hkm kd hkd hd2
  · exact yr_2037 km hkm kd hkd hd2
  · exact yr_2038 km hkm kd hkd hd2
  · exact yr_2039 km hkm kd hkd hd2
  · exact yr_2040 km hkm kd hkd hd2
  · exact yr_2041 km hkm kd hkd hd2
  · exact yr_2042 km hkm kd hkd hd2
  · exact yr_2043 km hkm kd hkd hd2
  · exact yr_2044 km hkm kd hkd hd2
  · exact yr_2045 km hkm kd hkd hd2
  · exact yr_2046 km hkm kd hkd hd2
  · exact yr_2047 km hkm kd hkd hd2
  · exact yr_2048 km hkm kd hkd hd2
  · exact yr_2049 km hkm kd hkd hd2
  · exact yr_2050 km hkm kd hkd hd2
  · exact yr_2051 km hkm kd hkd hd2
  · exact yr_2052 km hkm kd hkd hd2
  · exact yr_2053 km hkm kd hkd hd2
  · exact yr_2054 km hkm kd hkd hd2
  · exact yr_2055 km hkm kd hkd hd2
  · exact yr_2056 km hkm kd hkd hd2
  · exact yr_2057 km hkm kd hkd hd2
  · exact yr_2058 km hkm kd hkd hd2
  · exact yr_2059 km hkm kd hkd hd2
  · exact yr_2060 km hkm kd hkd hd2
  · exact yr_2061 km hkm kd hkd hd2
  · exact yr_2062 km hkm kd hkd hd2
  · exact yr_2063 km hkm kd hkd hd2
  · exact yr_2064 km hkm kd hkd hd2
  · exact yr_2065 km hkm kd hkd hd2
  · exact yr_2066 km hkm kd hkd hd2
  · exact yr_2067 km hkm kd hkd hd2
  · exact yr_2068 km hkm kd hkd hd2
  · exact yr_2069 km hkm kd hkd hd2
  · exact yr_2070 km hkm kd hkd hd2
  · exact yr_2071 km hkm kd hkd hd2
  · exact yr_2072 km hkm kd hkd hd2
  · exact yr_2073 km hkm kd hkd hd2
  · exact yr_2074 km hkm kd hkd hd2
  · exact yr_2075 km hkm kd hkd hd2
  · exact yr_2076 km hkm kd hkd hd2
  · exact yr_2077 km hkm kd hkd hd2
  · exact yr_2078 km hkm kd hkd hd2
  · exact yr_2079 km hkm kd hkd hd2
  · exact yr_2080 km hkm kd hkd hd2
  · exact yr_2081 km hkm kd hkd hd2
  · exact yr_2082 km hkm kd hkd hd2
  · exact yr_2083 km hkm kd hkd hd2
  · exact yr_2084 km hkm kd hkd hd2
  · exact yr_2085 km hkm kd hkd hd2
  · exact yr_2086 km hkm kd hkd hd2
  · exact yr_2087 km hkm kd hkd hd2
  · exact yr_2088 km hkm kd hkd hd2
  · exact yr_2089 km hkm kd hkd hd2
  · exact yr_2090 km hkm kd hkd hd2
  · exact yr_2091 km hkm kd hkd hd2
  · exact yr_2092 km hkm kd hkd hd2
  · exact yr_2093 km hkm kd hkd hd2
  · exact yr_2094 km hkm kd hkd hd2
  · exact yr_2095 km hkm kd hkd hd2
  · exact yr_2096 km hkm kd hkd hd2
  · exact yr_2097 km hkm kd hkd hd2
  · exact yr_2098 km hkm kd hkd hd2
  · exact yr_2099 km hkm kd hkd hd2
  · exact yr_2100 km hkm kd hkd hd2
  · exact yr_2101 km hkm kd hkd hd2
  · exact yr_2102 km hkm kd hkd hd2
  · exact yr_2103 km hkm kd hkd hd2
  · exact yr_2104 km hkm kd hkd hd2
  · exact yr_2105 km hkm kd hkd hd2
  · exact yr_2106 km hkm kd hkd hd2
  · exact yr_2107 km hkm kd hkd hd2
  · exact yr_2108 km hkm kd hkd hd2
  · exact yr_2109 km hkm kd hkd hd2
  · exact yr_2110 km hkm kd hkd hd2
  · exact yr_2111 km hkm kd hkd hd2
  · exact yr_2112 km hkm kd hkd hd2
  · exact yr_2113 km hkm kd hkd hd2
  · exact yr_2114 km hkm kd hkd hd2
  · exact yr_2115 km hkm kd hkd hd2
  · exact yr_2116 km hkm kd hkd hd2
  · exact yr_2117 km hkm kd hkd hd2
  · exact yr_2118 km hkm kd hkd hd2
  · exact yr_2119 km hkm kd hkd hd2
  · exact yr_2120 km hkm kd hkd hd2
  · exact yr_2121 km hkm kd hkd hd2
  · exact yr_2122 km hkm kd hkd hd2
  · exact yr_2123 km hkm kd hkd hd2
  · exact yr_2124 km hkm kd hkd hd2
  · exact yr_2125 km hkm kd hkd hd2
  · exact yr_2126 km hkm kd hkd hd2
  · exact yr_2127 km hkm kd hkd hd2
  · exact yr_2128 km hkm kd hkd hd2
  · exact yr_2129 km hkm kd hkd hd2
  · exact yr_2130 km hkm kd hkd hd2
  · exact yr_2131 km hkm kd hkd hd2
  · exact yr_2132 km hkm kd hkd hd2
  · exact yr_2133 km hkm kd hkd hd2
  · exact yr_2134 km hkm kd hkd hd2
  · exact yr_2135 km hkm kd hkd hd2
  · exact yr_2136 km hkm kd hkd hd2
  · exact yr_2137 km hkm kd hkd hd2
  · exact yr_2138 km hkm kd hkd hd2
  · exact yr_2139 km hkm kd hkd hd2
  · exact yr_2140 km hkm kd hkd hd2
  · exact yr_2141 km hkm kd hkd hd2
  · exact yr_2142 km hkm kd hkd hd2
  · exact yr_2143 km hkm kd hkd hd2
  · exact yr_2144 km hkm kd hkd hd2
  · exact yr_2145 km hkm kd hkd hd2
  · exact yr_2146 km hkm kd hkd hd2
  · exact yr_2147 km hkm kd hkd hd2
  · exact yr_2148 km hkm kd hkd hd2
  · exact yr_2149 km hkm kd hkd hd2
  · exact yr_2150 km hkm kd hkd hd2
  · exact yr_2151 km hkm kd hkd hd2
  · exact yr_2152 km hkm kd hkd hd2
  · exact yr_2153 km hkm kd hkd hd2
  · exact yr_2154 km hkm kd hkd hd2
  · exact yr_2155 km hkm kd hkd hd2

/-- C4 witness. -/
theorem C4_witness :
    Date.julian_day_number_to_gregorian_date (Date.to_julian_day_number ⟨2019, 7, 20⟩) =
      ⟨2019, 7, 20⟩ :=
  C4_theorem.1 2019 7 20 (by decide) (by decide) (by decide) (by decide) (by decide)
    (by decide)

end Dbase
